import Mathlib

/-!
# Verification of the cineray-web solar calculator core

Shallow embedding of the solar-position / sun-times / timezone modules of the
repository (the files `solar-calculator.js` and `timezone-handler.js`, which are
concatenated into `src/lib/database-schema.sql`, together with
`src/lib/sun-times.js`).

Modelling conventions:
* JavaScript numbers are modelled by exact reals; IEEE-754 rounding is out of
  scope.  A coordinate argument received from JavaScript is a `JSNum`: a finite
  real, `NaN`, or a non-number value.
* A JavaScript `Date` is modelled by its calendar fields plus a validity flag
  (`valid = false` models a `Date` whose `getTime()` is `NaN`).  The runtime's
  local time zone is taken to be UTC, so the local accessors (`getFullYear`,
  `getMonth`, `getDate`) agree with the UTC ones.  Millisecond truncation of
  `Date` arithmetic is not modelled (times are exact reals).
* Thrown errors become `Except SunError`; a JavaScript `null` result becomes
  `Option.none`.
* `Date` values produced by `setUTCMinutes` on a midnight base are represented
  by their signed offset, in minutes, from that midnight (the JavaScript call
  normalises overflowing minute values in exactly this way).
-/

namespace SolarCalc

open Real

/-- A JavaScript value passed where a coordinate number is expected. -/
inductive JSNum where
  | num (x : ℝ)
  | nan
  | nonNumber

/-- The real carried by a `JSNum` (junk value 0 for the non-numeric cases;
every use below is guarded by `validateCoordinates`). -/
def JSNum.val : JSNum → ℝ
  | .num x => x
  | _ => 0

/-- A JavaScript `Date`, by its (UTC = local) calendar fields.
`month` is the 0-based `getUTCMonth()` value. -/
structure JSDate where
  valid : Bool
  year : ℤ
  month : ℤ
  day : ℤ
  hour : ℤ
  minute : ℤ
  second : ℤ

/-- The error kinds thrown by the calculator (the distinct `throw new Error`
messages of the source). -/
inductive SunError where
  | invalidCoordinates
  | invalidDate
  | yearOutOfRange
  | intervalOutOfRange
  | invalidTimezone
deriving DecidableEq

/-- `validateCoordinates` from solar-calculator.js: a non-number or `NaN`
argument is rejected, then the range checks run. -/
noncomputable def validateCoordinates : JSNum → JSNum → Bool
  | .num lat, .num lon =>
      decide (-90 ≤ lat) && decide (lat ≤ 90) && decide (-180 ≤ lon) && decide (lon ≤ 180)
  | _, _ => false

/-- `toRadians` from solar-calculator.js. -/
noncomputable def toRadians (degrees : ℝ) : ℝ := degrees * π / 180

/-- `toDegrees` from solar-calculator.js. -/
noncomputable def toDegrees (radians : ℝ) : ℝ := radians * 180 / π

/-- JavaScript's truncating conversion (toward zero), used by the `%`
operator. -/
noncomputable def jsTrunc (x : ℝ) : ℤ := if 0 ≤ x then ⌊x⌋ else ⌈x⌉

/-- JavaScript's `%` operator on numbers: the remainder has the sign of the
dividend (`x - y * trunc (x / y)`). -/
noncomputable def jsMod (x y : ℝ) : ℝ := x - y * jsTrunc (x / y)

/-- JavaScript's `Math.atan2 y x`, with range `(-π, π]`, modelled by the
complex argument of `x + y i`. -/
noncomputable def atan2 (y x : ℝ) : ℝ := Complex.arg ⟨x, y⟩

/-- `getJulianDay` from solar-calculator.js, on the date's (UTC) calendar
fields.  Note the source computes `y = year - a`, not the textbook
`year + 4800 - a`. -/
noncomputable def getJulianDay (date : JSDate) : ℝ :=
  let month : ℝ := (date.month : ℝ) + 1
  let a : ℝ := ((⌊(14 - month) / 12⌋ : ℤ) : ℝ)
  let y : ℝ := (date.year : ℝ) - a
  let m : ℝ := month + 12 * a - 3
  let jdn : ℝ := (date.day : ℝ) + ((⌊(153 * m + 2) / 5⌋ : ℤ) : ℝ) + 365 * y
    + ((⌊y / 4⌋ : ℤ) : ℝ) - ((⌊y / 100⌋ : ℤ) : ℝ) + ((⌊y / 400⌋ : ℤ) : ℝ) - 32045
  jdn + ((date.hour : ℝ) - 12) / 24 + (date.minute : ℝ) / 1440 + (date.second : ℝ) / 86400

/-- `getEquationOfTime` from solar-calculator.js (minutes). -/
noncomputable def getEquationOfTime (julianDay : ℝ) : ℝ :=
  let n := julianDay - 2451545.0
  let L := jsMod (280.460 + 0.9856474 * n) 360
  let g := toRadians (jsMod (357.528 + 0.9856003 * n) 360)
  let lambda := toRadians (L + 1.915 * sin g + 0.020 * sin (2 * g))
  let alpha := atan2 (cos (toRadians 23.439) * sin lambda) (cos lambda)
  4 * toDegrees (toRadians L - alpha)

/-- `getSolarDeclination` from solar-calculator.js (degrees). -/
noncomputable def getSolarDeclination (julianDay : ℝ) : ℝ :=
  let n := julianDay - 2451545.0
  let L := jsMod (280.460 + 0.9856474 * n) 360
  let g := toRadians (jsMod (357.528 + 0.9856003 * n) 360)
  let lambda := toRadians (L + 1.915 * sin g + 0.020 * sin (2 * g))
  toDegrees (arcsin (sin (toRadians 23.439) * sin lambda))

/-- The result record of `calculateSunPosition`. -/
structure SolarPosition where
  azimuth : ℝ
  elevation : ℝ
  distance : ℝ

/-- The numerical body of `calculateSunPosition` (everything after the
argument validation), for a finite latitude/longitude and a valid date. -/
noncomputable def sunPositionCore (latitude longitude : ℝ) (date : JSDate) : SolarPosition :=
  let julianDay := getJulianDay date
  let declination := getSolarDeclination julianDay
  let eqTime := getEquationOfTime julianDay
  let timeOffset := eqTime + 4 * longitude
  let trueSolarTime := (date.hour : ℝ) * 60 + (date.minute : ℝ) + (date.second : ℝ) / 60 + timeOffset
  let hourAngle := trueSolarTime / 4 - 180
  let latRad := toRadians latitude
  let declRad := toRadians declination
  let hourAngleRad := toRadians hourAngle
  let elevation := arcsin (sin declRad * sin latRad + cos declRad * cos latRad * cos hourAngleRad)
  let azimuthRad := atan2 (sin hourAngleRad) (cos hourAngleRad * sin latRad - tan declRad * cos latRad)
  let azimuth0 := toDegrees azimuthRad + 180
  let azimuth1 := if azimuth0 ≥ 360 then azimuth0 - 360 else azimuth0
  let azimuth2 := if azimuth1 < 0 then azimuth1 + 360 else azimuth1
  let n := julianDay - 2451545.0
  let g := toRadians (jsMod (357.528 + 0.9856003 * n) 360)
  { azimuth := azimuth2
    elevation := toDegrees elevation
    distance := 1.00014 - 0.01671 * cos g - 0.00014 * cos (2 * g) }

/-- `calculateSunPosition` from solar-calculator.js: coordinate validation,
then date validation (`date instanceof Date && !isNaN(date.getTime())`),
then the numerical body. -/
noncomputable def calculateSunPosition (latitude longitude : JSNum) (date : JSDate) :
    Except SunError SolarPosition :=
  if ¬ validateCoordinates latitude longitude then .error .invalidCoordinates
  else if ¬ date.valid then .error .invalidDate
  else .ok (sunPositionCore latitude.val longitude.val date)

/-- The `cosHourAngle` quantity shared by `calculateSunrise` and
`calculateSunset` (solar-calculator.js lines 261-262 and 304-305):
`(sin(-0.833°) - sin φ sin δ) / (cos φ cos δ)` at the date's declination. -/
noncomputable def cosHourAngleFor (latitude : ℝ) (date : JSDate) : ℝ :=
  let dateOnly : JSDate := ⟨true, date.year, date.month, date.day, 0, 0, 0⟩
  let declination := getSolarDeclination (getJulianDay dateOnly)
  let latRad := toRadians latitude
  let declRad := toRadians declination
  (sin (toRadians (-0.833)) - sin latRad * sin declRad) / (cos latRad * cos declRad)

/-- The body of `calculateSunrise` (after validation).  A returned instant is
its offset in minutes from the date's midnight (see module conventions). -/
noncomputable def sunriseCore (latitude longitude : ℝ) (date : JSDate) : Option ℝ :=
  let dateOnly : JSDate := ⟨true, date.year, date.month, date.day, 0, 0, 0⟩
  let julianDay := getJulianDay dateOnly
  let eqTime := getEquationOfTime julianDay
  let cosHourAngle := cosHourAngleFor latitude date
  if cosHourAngle > 1 then none
  else if cosHourAngle < -1 then none
  else
    let hourAngle := toDegrees (arccos cosHourAngle)
    let timeOffset := eqTime + 4 * longitude
    some (720 - 4 * hourAngle - timeOffset)

/-- `calculateSunrise` from solar-calculator.js. -/
noncomputable def calculateSunrise (latitude longitude : JSNum) (date : JSDate) :
    Except SunError (Option ℝ) :=
  if ¬ validateCoordinates latitude longitude then .error .invalidCoordinates
  else .ok (sunriseCore latitude.val longitude.val date)

/-- The body of `calculateSunset` (after validation). -/
noncomputable def sunsetCore (latitude longitude : ℝ) (date : JSDate) : Option ℝ :=
  let dateOnly : JSDate := ⟨true, date.year, date.month, date.day, 0, 0, 0⟩
  let julianDay := getJulianDay dateOnly
  let eqTime := getEquationOfTime julianDay
  let cosHourAngle := cosHourAngleFor latitude date
  if cosHourAngle > 1 then none
  else if cosHourAngle < -1 then none
  else
    let hourAngle := toDegrees (arccos cosHourAngle)
    let timeOffset := eqTime + 4 * longitude
    some (720 + 4 * hourAngle - timeOffset)

/-- `calculateSunset` from solar-calculator.js. -/
noncomputable def calculateSunset (latitude longitude : JSNum) (date : JSDate) :
    Except SunError (Option ℝ) :=
  if ¬ validateCoordinates latitude longitude then .error .invalidCoordinates
  else .ok (sunsetCore latitude.val longitude.val date)

/-- The body of `calculateSolarNoon` (after validation). -/
noncomputable def solarNoonCore (longitude : ℝ) (date : JSDate) : ℝ :=
  let dateOnly : JSDate := ⟨true, date.year, date.month, date.day, 0, 0, 0⟩
  let julianDay := getJulianDay dateOnly
  let eqTime := getEquationOfTime julianDay
  let timeOffset := eqTime + 4 * longitude
  720 - timeOffset

/-- `calculateSolarNoon` from solar-calculator.js. -/
noncomputable def calculateSolarNoon (latitude longitude : JSNum) (date : JSDate) :
    Except SunError ℝ :=
  if ¬ validateCoordinates latitude longitude then .error .invalidCoordinates
  else .ok (solarNoonCore longitude.val date)

/-- `normalizeDate` from solar-calculator.js (the non-`Date`-object case is
not representable in this model). -/
def normalizeDate (date : JSDate) : Except SunError JSDate :=
  if ¬ date.valid then .error .invalidDate
  else if date.year < 1000 ∨ date.year > 3000 then .error .yearOutOfRange
  else .ok date

/-! ## sun-times.js -/

/-- The `Date` lying `m` real minutes after the given date's midnight, as the
JavaScript runtime presents it through the UTC accessors (whole seconds; the
offsets that occur below always stay within the same calendar day). -/
noncomputable def dateAtMinutes (date : JSDate) (m : ℝ) : JSDate :=
  let s : ℤ := ⌊m * 60⌋
  ⟨true, date.year, date.month, date.day, s / 3600, s % 3600 / 60, s % 60⟩

/-- Solar elevation seen `t` milliseconds after the date's midnight (the
`calculateSunPosition(...).elevation` read inside the bisection loop). -/
noncomputable def elevationAtMillis (latitude longitude : ℝ) (date : JSDate) (t : ℝ) : ℝ :=
  (sunPositionCore latitude longitude (dateAtMinutes date (t / 60000))).elevation

/-- Outcome of the bisection loop of `calculateTimeForElevation`: either the
early return of a midpoint within tolerance, or the interval left when the
loop exits. -/
inductive BisectResult where
  | found (t : ℝ)
  | finished (s e : ℝ)

/-- The interval the loop of `calculateTimeForElevation` narrows to after one
bisection step (the `startTime = midTime` / `endTime = midTime` updates). -/
noncomputable def bisectNext (elev : ℝ → ℝ) (target : ℝ) (rising : Bool) (s e : ℝ) : ℝ × ℝ :=
  let mid := (s + e) / 2
  if rising then (if elev mid < target then (mid, e) else (s, mid))
  else (if elev mid > target then (mid, e) else (s, mid))

/-- The `while (iterations < maxIterations && (endTime - startTime) > 60000)`
loop of `calculateTimeForElevation`, with the remaining iteration budget as
fuel; the second component counts the iterations actually executed. -/
noncomputable def bisectLoop (elev : ℝ → ℝ) (target : ℝ) (rising : Bool) :
    ℕ → ℝ → ℝ → BisectResult × ℕ
  | 0, s, e => (.finished s e, 0)
  | n + 1, s, e =>
    if e - s ≤ 60000 then (.finished s e, 0)
    else
      let mid := (s + e) / 2
      if |elev mid - target| < 0.01 then (.found mid, 1)
      else
        let next := bisectNext elev target rising s e
        let r := bisectLoop elev target rising n next.1 next.2
        (r.1, r.2 + 1)

/-- The body of `calculateTimeForElevation` (after validation).  Returned
instants are offsets in milliseconds from the date's midnight. -/
noncomputable def timeForElevationCore (latitude longitude : ℝ) (date : JSDate)
    (elevation : ℝ) (rising : Bool) : Option ℝ :=
  let startMs : ℝ := if rising then 0 else 43200000
  let endMs : ℝ := if rising then 43200000 else 86399999
  match bisectLoop (elevationAtMillis latitude longitude date) elevation rising 50 startMs endMs with
  | (.found t, _) => some t
  | (.finished s e, _) =>
    let finalTime := (s + e) / 2
    if |elevationAtMillis latitude longitude date finalTime - elevation| < 1.0 then some finalTime
    else none

/-- `calculateTimeForElevation` from sun-times.js. -/
noncomputable def calculateTimeForElevation (latitude longitude : JSNum) (date : JSDate)
    (elevation : ℝ) (rising : Bool) : Except SunError (Option ℝ) :=
  if ¬ validateCoordinates latitude longitude then .error .invalidCoordinates
  else .ok (timeForElevationCore latitude.val longitude.val date elevation rising)

/-- An `{start, end}` window (`end` being a Lean keyword, the second field is
called `finish`). -/
structure EventWindow where
  start : Option ℝ
  finish : Option ℝ

/-- `calculateGoldenHour` from sun-times.js: `(morning, evening)` windows. -/
noncomputable def calculateGoldenHour (latitude longitude : JSNum) (date : JSDate) :
    Except SunError (EventWindow × EventWindow) :=
  if ¬ validateCoordinates latitude longitude then .error .invalidCoordinates
  else match normalizeDate date with
  | .error e => .error e
  | .ok nd =>
    let lat := latitude.val
    let lon := longitude.val
    .ok (⟨timeForElevationCore lat lon nd (-6) true, timeForElevationCore lat lon nd 6 true⟩,
         ⟨timeForElevationCore lat lon nd 6 false, timeForElevationCore lat lon nd (-6) false⟩)

/-- `calculateBlueHour` from sun-times.js: `(morning, evening)` windows. -/
noncomputable def calculateBlueHour (latitude longitude : JSNum) (date : JSDate) :
    Except SunError (EventWindow × EventWindow) :=
  if ¬ validateCoordinates latitude longitude then .error .invalidCoordinates
  else match normalizeDate date with
  | .error e => .error e
  | .ok nd =>
    let lat := latitude.val
    let lon := longitude.val
    .ok (⟨timeForElevationCore lat lon nd (-12) true, timeForElevationCore lat lon nd (-6) true⟩,
         ⟨timeForElevationCore lat lon nd (-6) false, timeForElevationCore lat lon nd (-12) false⟩)

/-- The civil/nautical/astronomical windows of `calculateTwilightPeriods`
(each a `(morning, evening)` pair).  The sunrise/sunset entries are minute
offsets while the bisection entries are millisecond offsets, mirroring the
mixed `Date` sources of the original object. -/
structure TwilightWindows where
  civil : EventWindow × EventWindow
  nautical : EventWindow × EventWindow
  astronomical : EventWindow × EventWindow

/-- `calculateTwilightPeriods` from sun-times.js. -/
noncomputable def calculateTwilightPeriods (latitude longitude : JSNum) (date : JSDate) :
    Except SunError TwilightWindows :=
  if ¬ validateCoordinates latitude longitude then .error .invalidCoordinates
  else match normalizeDate date with
  | .error e => .error e
  | .ok nd =>
    let lat := latitude.val
    let lon := longitude.val
    let civilMorningStart := timeForElevationCore lat lon nd (-6) true
    let civilEveningEnd := timeForElevationCore lat lon nd (-6) false
    let nauticalMorningStart := timeForElevationCore lat lon nd (-12) true
    let nauticalEveningEnd := timeForElevationCore lat lon nd (-12) false
    let astronomicalMorningStart := timeForElevationCore lat lon nd (-18) true
    let astronomicalEveningEnd := timeForElevationCore lat lon nd (-18) false
    let sunrise := sunriseCore lat lon nd
    let sunset := sunsetCore lat lon nd
    .ok { civil := (⟨civilMorningStart, sunrise⟩, ⟨sunset, civilEveningEnd⟩)
          nautical := (⟨nauticalMorningStart, civilMorningStart⟩,
                       ⟨civilEveningEnd, nauticalEveningEnd⟩)
          astronomical := (⟨astronomicalMorningStart, nauticalMorningStart⟩,
                           ⟨nauticalEveningEnd, astronomicalEveningEnd⟩) }

/-- Number of points the `for (let minutes = 0; minutes < 1440; minutes +=
intervalMinutes)` loop of `generateSunPath` produces: the number of naturals
`k` with `k * intervalMinutes < 1440`, which for a positive interval is
`⌈1440 / intervalMinutes⌉` (see `sunPath_index_iff`). -/
noncomputable def sunPathNumPoints (intervalMinutes : ℝ) : ℕ :=
  ⌈(1440 : ℝ) / intervalMinutes⌉₊

/-- One entry of the generated sun path; `time` is the offset in minutes from
the date's midnight. -/
structure SunPathPoint where
  time : ℝ
  azimuth : ℝ
  elevation : ℝ
  distance : ℝ

/-- The list built by `generateSunPath`'s loop. -/
noncomputable def sunPathList (latitude longitude : ℝ) (date : JSDate)
    (intervalMinutes : ℝ) : List SunPathPoint :=
  (List.range (sunPathNumPoints intervalMinutes)).map fun (k : ℕ) =>
    let m := (k : ℝ) * intervalMinutes
    let p := sunPositionCore latitude longitude (dateAtMinutes date m)
    ⟨m, p.azimuth, p.elevation, p.distance⟩

/-- `generateSunPath` from sun-times.js (default interval 15 is supplied by
callers explicitly here). -/
noncomputable def generateSunPath (latitude longitude : JSNum) (date : JSDate)
    (intervalMinutes : ℝ) : Except SunError (List SunPathPoint) :=
  if ¬ validateCoordinates latitude longitude then .error .invalidCoordinates
  else if intervalMinutes ≤ 0 ∨ intervalMinutes > 1440 then .error .intervalOutOfRange
  else match normalizeDate date with
  | .error e => .error e
  | .ok nd => .ok (sunPathList latitude.val longitude.val nd intervalMinutes)

/-- The aggregate result of `calculateSunTimes`.  `sunrise`, `sunset` and
`solarNoon` are minute offsets from midnight, `dayLength` is in hours. -/
structure SunTimes where
  sunrise : Option ℝ
  sunset : Option ℝ
  solarNoon : ℝ
  dayLength : Option ℝ
  goldenHour : EventWindow × EventWindow
  blueHour : EventWindow × EventWindow
  twilight : TwilightWindows

/-- The body of `calculateSunTimes` (after validation and normalisation). -/
noncomputable def sunTimesCore (lat lon : ℝ) (nd : JSDate) : SunTimes :=
  let sunrise := sunriseCore lat lon nd
  let sunset := sunsetCore lat lon nd
  let dayLength : Option ℝ :=
    match sunrise, sunset with
    | some r, some s => some ((s - r) / 60)
    | _, _ => none
  { sunrise := sunrise
    sunset := sunset
    solarNoon := solarNoonCore lon nd
    dayLength := dayLength
    goldenHour := (⟨timeForElevationCore lat lon nd (-6) true,
                    timeForElevationCore lat lon nd 6 true⟩,
                   ⟨timeForElevationCore lat lon nd 6 false,
                    timeForElevationCore lat lon nd (-6) false⟩)
    blueHour := (⟨timeForElevationCore lat lon nd (-12) true,
                  timeForElevationCore lat lon nd (-6) true⟩,
                 ⟨timeForElevationCore lat lon nd (-6) false,
                  timeForElevationCore lat lon nd (-12) false⟩)
    twilight :=
      { civil := (⟨timeForElevationCore lat lon nd (-6) true, sunrise⟩,
                  ⟨sunset, timeForElevationCore lat lon nd (-6) false⟩)
        nautical := (⟨timeForElevationCore lat lon nd (-12) true,
                      timeForElevationCore lat lon nd (-6) true⟩,
                     ⟨timeForElevationCore lat lon nd (-6) false,
                      timeForElevationCore lat lon nd (-12) false⟩)
        astronomical := (⟨timeForElevationCore lat lon nd (-18) true,
                          timeForElevationCore lat lon nd (-12) true⟩,
                         ⟨timeForElevationCore lat lon nd (-12) false,
                          timeForElevationCore lat lon nd (-18) false⟩) } }

/-- `calculateSunTimes` from sun-times.js. -/
noncomputable def calculateSunTimes (latitude longitude : JSNum) (date : JSDate) :
    Except SunError SunTimes :=
  if ¬ validateCoordinates latitude longitude then .error .invalidCoordinates
  else match normalizeDate date with
  | .error e => .error e
  | .ok nd => .ok (sunTimesCore latitude.val longitude.val nd)

/-- `generateVisibleSunPath` from sun-times.js: the full path filtered to the
points whose elevation is strictly positive. -/
noncomputable def generateVisibleSunPath (latitude longitude : JSNum) (date : JSDate)
    (intervalMinutes : ℝ) : Except SunError (List SunPathPoint) :=
  (generateSunPath latitude longitude date intervalMinutes).map
    (List.filter fun point => decide (point.elevation > 0))

/-- The five classifications of `getDayNightStatus`. -/
inductive DayNightKind where
  | day
  | civilTwilight
  | nauticalTwilight
  | astronomicalTwilight
  | night
deriving DecidableEq

/-- The result object of `getDayNightStatus`. -/
structure DayNightStatus where
  status : DayNightKind
  sunPos : SolarPosition
  isVisible : Bool

/-- `getDayNightStatus` from sun-times.js. -/
noncomputable def getDayNightStatus (latitude longitude : JSNum) (date : JSDate) :
    Except SunError DayNightStatus :=
  if ¬ validateCoordinates latitude longitude then .error .invalidCoordinates
  else match normalizeDate date with
  | .error e => .error e
  | .ok nd =>
    let sunPosition := sunPositionCore latitude.val longitude.val nd
    let status : DayNightKind :=
      if sunPosition.elevation > 0 then .day
      else if sunPosition.elevation > -6 then .civilTwilight
      else if sunPosition.elevation > -12 then .nauticalTwilight
      else if sunPosition.elevation > -18 then .astronomicalTwilight
      else .night
    .ok ⟨status, sunPosition, decide (sunPosition.elevation > 0)⟩

/-! ## timezone-handler.js -/

/-- `getTimezoneFromCoordinates`: the static bounding-box table. -/
noncomputable def getTimezoneFromCoordinates (latitude longitude : ℝ) : Option String :=
  if 25 ≤ latitude ∧ latitude ≤ 70 ∧ -170 ≤ longitude ∧ longitude ≤ -50 then
    if -130 ≤ longitude ∧ longitude ≤ -110 then some "America/Los_Angeles"
    else if -110 ≤ longitude ∧ longitude ≤ -100 then some "America/Denver"
    else if -100 ≤ longitude ∧ longitude ≤ -80 then some "America/Chicago"
    else if -80 ≤ longitude ∧ longitude ≤ -65 then some "America/New_York"
    else if -170 ≤ longitude ∧ longitude ≤ -130 then some "Pacific/Honolulu"
    else none
  else if 35 ≤ latitude ∧ latitude ≤ 70 ∧ -10 ≤ longitude ∧ longitude ≤ 40 then
    if -10 ≤ longitude ∧ longitude ≤ 5 then some "Europe/London"
    else if 5 ≤ longitude ∧ longitude ≤ 15 then some "Europe/Paris"
    else if 15 ≤ longitude ∧ longitude ≤ 25 then some "Europe/Berlin"
    else if 25 ≤ longitude ∧ longitude ≤ 40 then some "Europe/Moscow"
    else none
  else if 10 ≤ latitude ∧ latitude ≤ 70 ∧ 60 ≤ longitude ∧ longitude ≤ 180 then
    if 60 ≤ longitude ∧ longitude ≤ 90 then some "Asia/Kolkata"
    else if 90 ≤ longitude ∧ longitude ≤ 120 then some "Asia/Shanghai"
    else if 120 ≤ longitude ∧ longitude ≤ 150 then some "Asia/Tokyo"
    else none
  else if -45 ≤ latitude ∧ latitude ≤ -10 ∧ 110 ≤ longitude ∧ longitude ≤ 180 then
    if 110 ≤ longitude ∧ longitude ≤ 130 then some "Australia/Perth"
    else if 130 ≤ longitude ∧ longitude ≤ 145 then some "Australia/Adelaide"
    else if 145 ≤ longitude ∧ longitude ≤ 155 then some "Australia/Sydney"
    else none
  else if -60 ≤ latitude ∧ latitude ≤ 15 ∧ -85 ≤ longitude ∧ longitude ≤ -30 then
    if -85 ≤ longitude ∧ longitude ≤ -65 then some "America/Lima"
    else if -65 ≤ longitude ∧ longitude ≤ -45 then some "America/Sao_Paulo"
    else if -45 ≤ longitude ∧ longitude ≤ -30 then some "America/Argentina/Buenos_Aires"
    else none
  else if -35 ≤ latitude ∧ latitude ≤ 35 ∧ -20 ≤ longitude ∧ longitude ≤ 50 then
    if -20 ≤ longitude ∧ longitude ≤ 10 then some "Africa/Lagos"
    else if 10 ≤ longitude ∧ longitude ≤ 30 then some "Africa/Cairo"
    else if 30 ≤ longitude ∧ longitude ≤ 50 then some "Africa/Nairobi"
    else none
  else none

/-- `getTimezoneForCoordinates` from timezone-handler.js.  The browser
fallback zone is a parameter; the memoisation cache is omitted (the lookup is
a pure function of the rounded coordinate, so the cache only replays it). -/
noncomputable def getTimezoneForCoordinates (browserTz : String)
    (latitude longitude : JSNum) : Except SunError String :=
  if ¬ validateCoordinates latitude longitude then .error .invalidCoordinates
  else match getTimezoneFromCoordinates latitude.val longitude.val with
  | some tz => .ok tz
  | none => .ok browserTz

/-- `isDSTActive` from timezone-handler.js.  `offset` abstracts
`getTimezoneOffset` (a total function of the `Intl` environment, so the
`catch` branch is unreachable); `january`/`july` are the
`new Date(year, 0, 1)` / `new Date(year, 6, 1)` reference dates. -/
noncomputable def isDSTActive (offset : JSDate → String → ℝ) (date : JSDate)
    (timezone : String) : Except SunError Bool :=
  if ¬ date.valid then .error .invalidDate
  else if timezone = "" then .error .invalidTimezone
  else
    let january : JSDate := ⟨true, date.year, 0, 1, 0, 0, 0⟩
    let july : JSDate := ⟨true, date.year, 6, 1, 0, 0, 0⟩
    let janOffset := offset january timezone
    let julyOffset := offset july timezone
    let currentOffset := offset date timezone
    let standardOffset := max janOffset julyOffset
    .ok (decide (currentOffset < standardOffset))

/-! ## General helper lemmas -/

lemma toRadians_toDegrees (x : ℝ) : toRadians (toDegrees x) = x := by
  unfold toRadians toDegrees
  field_simp

lemma validateCoordinates_num_iff {a b : ℝ} :
    validateCoordinates (.num a) (.num b) = true ↔
      -90 ≤ a ∧ a ≤ 90 ∧ -180 ≤ b ∧ b ≤ 180 := by
  simp [validateCoordinates, and_assoc]

lemma validateCoordinates_true {a b : ℝ} (h1 : -90 ≤ a) (h2 : a ≤ 90)
    (h3 : -180 ≤ b) (h4 : b ≤ 180) :
    validateCoordinates (.num a) (.num b) = true :=
  validateCoordinates_num_iff.mpr ⟨h1, h2, h3, h4⟩

lemma normalizeDate_ok {d : JSDate} (hv : d.valid = true)
    (h1 : 1000 ≤ d.year) (h2 : d.year ≤ 3000) : normalizeDate d = .ok d := by
  unfold normalizeDate
  rw [if_neg (by simp [hv]), if_neg (by omega)]

lemma jsMod_eq_ceil {x y : ℝ} (h : ¬ 0 ≤ x / y) : jsMod x y = x - y * ⌈x / y⌉ := by
  unfold jsMod jsTrunc
  rw [if_neg h]

lemma jsMod_eq_floor {x y : ℝ} (h : 0 ≤ x / y) : jsMod x y = x - y * ⌊x / y⌋ := by
  unfold jsMod jsTrunc
  rw [if_pos h]

/-! ## Interval bounds for sine and cosine

The numerical facts about the solar formulas are derived from the cubic Taylor
bounds `Real.sin_bound` / `Real.cos_bound` on `[0, 1]`, after reducing each
argument (a rational multiple of `π`, via the usual shift identities) into that
range, and from the decimal bounds `pi_gt_d6` / `pi_lt_d6` on `π`. -/

lemma mul_pi_mem {u ulo uhi lo hi : ℝ} (h1 : ulo ≤ u) (h2 : u ≤ uhi) (h0 : 0 ≤ ulo)
    (hlo : lo ≤ ulo * 3.141592) (hhi : uhi * 3.141593 ≤ hi) :
    lo ≤ u * π ∧ u * π ≤ hi := by
  have hp1 : (3.141592 : ℝ) < π := pi_gt_d6
  have hp2 : π < 3.141593 := pi_lt_d6
  constructor
  · nlinarith
  · nlinarith

lemma sin_bounds_of_mem {x lo hi sl su : ℝ} (h1 : lo ≤ x) (h2 : x ≤ hi)
    (h0 : 0 ≤ lo) (h3 : hi ≤ 1)
    (hsl : sl ≤ lo - lo ^ 3 / 6 - hi ^ 4 * (5 / 96))
    (hsu : hi - hi ^ 3 / 6 + hi ^ 4 * (5 / 96) ≤ su) :
    sl ≤ sin x ∧ sin x ≤ su := by
  have hx : |x| ≤ 1 := abs_le.mpr ⟨by linarith, by linarith⟩
  have hb := abs_le.mp (Real.sin_bound hx)
  rw [abs_of_nonneg (by linarith : (0:ℝ) ≤ x)] at hb
  have hx2 : x ^ 2 ≤ hi ^ 2 := by nlinarith
  have hx4 : x ^ 4 ≤ hi ^ 4 := by nlinarith [sq_nonneg x, sq_nonneg hi]
  have hcub1 : lo - lo ^ 3 / 6 ≤ x - x ^ 3 / 6 := by
    nlinarith [mul_nonneg (sub_nonneg.2 h1)
      (sub_nonneg.2 (show x ^ 2 + x * lo + lo ^ 2 ≤ 6 by nlinarith))]
  have hcub2 : x - x ^ 3 / 6 ≤ hi - hi ^ 3 / 6 := by
    nlinarith [mul_nonneg (sub_nonneg.2 h2)
      (sub_nonneg.2 (show hi ^ 2 + hi * x + x ^ 2 ≤ 6 by nlinarith))]
  constructor
  · nlinarith [hb.1, hb.2]
  · nlinarith [hb.1, hb.2]

lemma cos_bounds_of_mem {x lo hi cl cu : ℝ} (h1 : lo ≤ x) (h2 : x ≤ hi)
    (h0 : 0 ≤ lo) (h3 : hi ≤ 1)
    (hcl : cl ≤ 1 - hi ^ 2 / 2 - hi ^ 4 * (5 / 96))
    (hcu : 1 - lo ^ 2 / 2 + hi ^ 4 * (5 / 96) ≤ cu) :
    cl ≤ cos x ∧ cos x ≤ cu := by
  have hx : |x| ≤ 1 := abs_le.mpr ⟨by linarith, by linarith⟩
  have hb := abs_le.mp (Real.cos_bound hx)
  rw [abs_of_nonneg (by linarith : (0:ℝ) ≤ x)] at hb
  have hx2a : x ^ 2 ≤ hi ^ 2 := by nlinarith
  have hx2b : lo ^ 2 ≤ x ^ 2 := by nlinarith
  have hx4 : x ^ 4 ≤ hi ^ 4 := by nlinarith [sq_nonneg x, sq_nonneg hi]
  constructor
  · nlinarith [hb.1, hb.2]
  · nlinarith [hb.1, hb.2]

lemma getDayNightStatus_ok {lat lon : ℝ} {d : JSDate}
    (hval : validateCoordinates (.num lat) (.num lon) = true)
    (hnorm : normalizeDate d = .ok d) :
    getDayNightStatus (.num lat) (.num lon) d = .ok
      ⟨(if (sunPositionCore lat lon d).elevation > 0 then .day
        else if (sunPositionCore lat lon d).elevation > -6 then .civilTwilight
        else if (sunPositionCore lat lon d).elevation > -12 then .nauticalTwilight
        else if (sunPositionCore lat lon d).elevation > -18 then .astronomicalTwilight
        else .night),
       sunPositionCore lat lon d,
       decide ((sunPositionCore lat lon d).elevation > 0)⟩ := by
  simp only [getDayNightStatus, hval, hnorm, Bool.not_true, Bool.false_eq_true,
    not_true, if_false, JSNum.val]

lemma classify_iff (el : ℝ) :
    ((if el > 0 then DayNightKind.day
      else if el > -6 then .civilTwilight
      else if el > -12 then .nauticalTwilight
      else if el > -18 then .astronomicalTwilight
      else .night) = .day ↔ 0 < el) ∧
    ((if el > 0 then DayNightKind.day
      else if el > -6 then .civilTwilight
      else if el > -12 then .nauticalTwilight
      else if el > -18 then .astronomicalTwilight
      else .night) = .civilTwilight ↔ -6 < el ∧ el ≤ 0) ∧
    ((if el > 0 then DayNightKind.day
      else if el > -6 then .civilTwilight
      else if el > -12 then .nauticalTwilight
      else if el > -18 then .astronomicalTwilight
      else .night) = .nauticalTwilight ↔ -12 < el ∧ el ≤ -6) ∧
    ((if el > 0 then DayNightKind.day
      else if el > -6 then .civilTwilight
      else if el > -12 then .nauticalTwilight
      else if el > -18 then .astronomicalTwilight
      else .night) = .astronomicalTwilight ↔ -18 < el ∧ el ≤ -12) ∧
    ((if el > 0 then DayNightKind.day
      else if el > -6 then .civilTwilight
      else if el > -12 then .nauticalTwilight
      else if el > -18 then .astronomicalTwilight
      else .night) = .night ↔ el ≤ -18) := by
  split_ifs with hc1 hc2 hc3 hc4 <;>
    refine ⟨?_, ?_, ?_, ?_, ?_⟩ <;> simp <;> push_neg at * <;>
    first
      | linarith
      | (intro h; linarith)
      | (constructor <;> linarith)

/-- C6: for valid inputs, `getDayNightStatus` reports `day` exactly when the
computed elevation is positive, `civil_twilight` on `(-6, 0]`,
`nautical_twilight` on `(-12, -6]`, `astronomical_twilight` on `(-18, -12]`,
`night` otherwise, and `isVisible` exactly when the elevation is positive. -/
theorem c6_theorem (lat lon : ℝ) (d : JSDate)
    (h1 : -90 ≤ lat) (h2 : lat ≤ 90) (h3 : -180 ≤ lon) (h4 : lon ≤ 180)
    (hv : d.valid = true) (hy1 : 1000 ≤ d.year) (hy2 : d.year ≤ 3000) :
    ∃ r : DayNightStatus, getDayNightStatus (.num lat) (.num lon) d = .ok r ∧
      r.sunPos = sunPositionCore lat lon d ∧
      (r.status = .day ↔ 0 < r.sunPos.elevation) ∧
      (r.status = .civilTwilight ↔ -6 < r.sunPos.elevation ∧ r.sunPos.elevation ≤ 0) ∧
      (r.status = .nauticalTwilight ↔ -12 < r.sunPos.elevation ∧ r.sunPos.elevation ≤ -6) ∧
      (r.status = .astronomicalTwilight ↔
        -18 < r.sunPos.elevation ∧ r.sunPos.elevation ≤ -12) ∧
      (r.status = .night ↔ r.sunPos.elevation ≤ -18) ∧
      (r.isVisible = true ↔ 0 < r.sunPos.elevation) := by
  have hval := validateCoordinates_true h1 h2 h3 h4
  have hnorm := normalizeDate_ok hv hy1 hy2
  obtain ⟨i1, i2, i3, i4, i5⟩ := classify_iff (sunPositionCore lat lon d).elevation
  exact ⟨_, getDayNightStatus_ok hval hnorm, rfl, i1, i2, i3, i4, i5,
    decide_eq_true_iff⟩

/-- C6 witness: the classification theorem applies at the equator at noon on
2024-06-21. -/
theorem c6_witness :
    ((-90 : ℝ) ≤ 0 ∧ (0 : ℝ) ≤ 90 ∧ (-180 : ℝ) ≤ 0 ∧ (0 : ℝ) ≤ 180 ∧
      (⟨true, 2024, 5, 21, 12, 0, 0⟩ : JSDate).valid = true ∧
      (1000 : ℤ) ≤ (⟨true, 2024, 5, 21, 12, 0, 0⟩ : JSDate).year ∧
      (⟨true, 2024, 5, 21, 12, 0, 0⟩ : JSDate).year ≤ 3000) ∧
    (∃ r : DayNightStatus,
      getDayNightStatus (.num 0) (.num 0) ⟨true, 2024, 5, 21, 12, 0, 0⟩ = .ok r ∧
      r.sunPos = sunPositionCore 0 0 ⟨true, 2024, 5, 21, 12, 0, 0⟩ ∧
      (r.status = .day ↔ 0 < r.sunPos.elevation) ∧
      (r.status = .civilTwilight ↔ -6 < r.sunPos.elevation ∧ r.sunPos.elevation ≤ 0) ∧
      (r.status = .nauticalTwilight ↔ -12 < r.sunPos.elevation ∧ r.sunPos.elevation ≤ -6) ∧
      (r.status = .astronomicalTwilight ↔
        -18 < r.sunPos.elevation ∧ r.sunPos.elevation ≤ -12) ∧
      (r.status = .night ↔ r.sunPos.elevation ≤ -18) ∧
      (r.isVisible = true ↔ 0 < r.sunPos.elevation)) :=
  ⟨⟨by norm_num, by norm_num, by norm_num, by norm_num, rfl, by norm_num, by norm_num⟩,
    c6_theorem 0 0 ⟨true, 2024, 5, 21, 12, 0, 0⟩ (by norm_num) (by norm_num)
      (by norm_num) (by norm_num) rfl (by norm_num) (by norm_num)⟩

/-- C7: for a valid date and a non-empty timezone identifier, `isDSTActive`
returns `true` exactly when the offset at the query date is strictly smaller
than the larger of the offsets at January 1 and July 1 of the same year. -/
theorem c7_theorem (offset : JSDate → String → ℝ) (d : JSDate) (z : String)
    (hv : d.valid = true) (hz : z ≠ "") :
    (isDSTActive offset d z = .ok true ↔
      offset d z < max (offset ⟨true, d.year, 0, 1, 0, 0, 0⟩ z)
                       (offset ⟨true, d.year, 6, 1, 0, 0, 0⟩ z)) ∧
    (isDSTActive offset d z = .ok false ↔
      ¬ offset d z < max (offset ⟨true, d.year, 0, 1, 0, 0, 0⟩ z)
                         (offset ⟨true, d.year, 6, 1, 0, 0, 0⟩ z)) := by
  constructor <;> simp [isDSTActive, hv, hz]

/-- C7 witness: the DST characterisation applied to the constant-zero offset
environment on 2024-02-15 in zone UTC. -/
theorem c7_witness :
    ((⟨true, 2024, 1, 15, 0, 0, 0⟩ : JSDate).valid = true ∧ ("UTC" : String) ≠ "") ∧
    ((isDSTActive (fun _ _ => 0) ⟨true, 2024, 1, 15, 0, 0, 0⟩ "UTC" = .ok true ↔
        (0 : ℝ) < max 0 0) ∧
     (isDSTActive (fun _ _ => 0) ⟨true, 2024, 1, 15, 0, 0, 0⟩ "UTC" = .ok false ↔
        ¬ (0 : ℝ) < max 0 0)) :=
  ⟨⟨rfl, by decide⟩,
    c7_theorem (fun _ _ => 0) ⟨true, 2024, 1, 15, 0, 0, 0⟩ "UTC" rfl (by decide)⟩

lemma bisectLoop_count_le (elev : ℝ → ℝ) (target : ℝ) (rising : Bool) :
    ∀ (fuel : ℕ) (s e : ℝ), (bisectLoop elev target rising fuel s e).2 ≤ fuel := by
  intro fuel
  induction fuel with
  | zero => intro s e; simp [bisectLoop]
  | succ n ih =>
    intro s e
    simp only [bisectLoop]
    split_ifs
    · simp
    · simp
    · have := ih (bisectNext elev target rising s e).1 (bisectNext elev target rising s e).2
      simpa using Nat.add_le_add_right this 1

lemma bisectNext_halves (elev : ℝ → ℝ) (target : ℝ) (rising : Bool) (s e : ℝ) :
    (bisectNext elev target rising s e).2 - (bisectNext elev target rising s e).1 =
      (e - s) / 2 := by
  unfold bisectNext
  dsimp only
  split_ifs <;> simp <;> ring

/-- C8: the bisection loop of `calculateTimeForElevation` executes at most 50
iterations, each bisection step halves the search interval exactly, and (for
valid coordinates) the operation always completes with a value. -/
theorem c8_theorem (lat lon : ℝ) (d : JSDate) (target : ℝ) (rising : Bool) (s e : ℝ) :
    (bisectLoop (elevationAtMillis lat lon d) target rising 50 s e).2 ≤ 50 ∧
    (bisectNext (elevationAtMillis lat lon d) target rising s e).2 -
        (bisectNext (elevationAtMillis lat lon d) target rising s e).1 = (e - s) / 2 ∧
    (validateCoordinates (.num lat) (.num lon) = true →
      calculateTimeForElevation (.num lat) (.num lon) d target rising =
        .ok (timeForElevationCore lat lon d target rising)) :=
  ⟨bisectLoop_count_le _ _ _ 50 s e, bisectNext_halves _ _ _ _ _, fun h => by
    simp [calculateTimeForElevation, h, JSNum.val]⟩

/-- C10: `generateVisibleSunPath` is exactly `generateSunPath` filtered to the
points with strictly positive elevation, an order-preserving sublist. -/
theorem c10_theorem (lat lon : JSNum) (d : JSDate) (i : ℝ) (l : List SunPathPoint) :
    (generateVisibleSunPath lat lon d i =
      (generateSunPath lat lon d i).map (List.filter fun p => decide (p.elevation > 0))) ∧
    (generateSunPath lat lon d i = .ok l →
      generateVisibleSunPath lat lon d i =
        .ok (l.filter fun p => decide (p.elevation > 0)) ∧
      (l.filter fun p => decide (p.elevation > 0)).Sublist l) := by
  refine ⟨rfl, fun h => ⟨?_, List.filter_sublist l⟩⟩
  rw [generateVisibleSunPath, h]
  rfl

/-- The claim-side description of a bad coordinate argument pair: latitude or
longitude non-numeric, `NaN`, or outside `[-90,90] × [-180,180]`. -/
def coordArgsInvalid (latitude longitude : JSNum) : Prop :=
  match latitude, longitude with
  | .num a, .num b => a < -90 ∨ 90 < a ∨ b < -180 ∨ 180 < b
  | _, _ => True

lemma validateCoordinates_false {lat lon : JSNum} (h : coordArgsInvalid lat lon) :
    validateCoordinates lat lon = false := by
  cases lat with
  | num a =>
    cases lon with
    | num b =>
      rw [← Bool.not_eq_true, validateCoordinates_num_iff]
      intro hc
      obtain ⟨c1, c2, c3, c4⟩ := hc
      simp only [coordArgsInvalid] at h
      rcases h with h | h | h | h <;> linarith
    | nan => rfl
    | nonNumber => rfl
  | nan => cases lon <;> rfl
  | nonNumber => cases lon <;> rfl

/-- C9: every public coordinate-taking operation fails with the coordinate
error, before any numerical work, whenever latitude or longitude is
non-numeric, NaN, or out of range. -/
theorem c9_theorem (lat lon : JSNum) (d : JSDate) (i target : ℝ) (rising : Bool)
    (tz : String) (h : coordArgsInvalid lat lon) :
    calculateSunPosition lat lon d = .error .invalidCoordinates ∧
    calculateSunrise lat lon d = .error .invalidCoordinates ∧
    calculateSunset lat lon d = .error .invalidCoordinates ∧
    calculateSunTimes lat lon d = .error .invalidCoordinates ∧
    generateSunPath lat lon d i = .error .invalidCoordinates ∧
    getDayNightStatus lat lon d = .error .invalidCoordinates ∧
    getTimezoneForCoordinates tz lat lon = .error .invalidCoordinates ∧
    calculateTimeForElevation lat lon d target rising = .error .invalidCoordinates := by
  have hv := validateCoordinates_false h
  refine ⟨?_, ?_, ?_, ?_, ?_, ?_, ?_, ?_⟩ <;>
    simp [calculateSunPosition, calculateSunrise, calculateSunset, calculateSunTimes,
      generateSunPath, getDayNightStatus, getTimezoneForCoordinates,
      calculateTimeForElevation, hv]

/-- C9 witness: latitude 91 is rejected by all seven public operations. -/
theorem c9_witness :
    coordArgsInvalid (.num 91) (.num 0) ∧
    (calculateSunPosition (.num 91) (.num 0) ⟨true, 2024, 0, 1, 0, 0, 0⟩ =
        .error .invalidCoordinates ∧
      calculateSunrise (.num 91) (.num 0) ⟨true, 2024, 0, 1, 0, 0, 0⟩ =
        .error .invalidCoordinates ∧
      calculateSunset (.num 91) (.num 0) ⟨true, 2024, 0, 1, 0, 0, 0⟩ =
        .error .invalidCoordinates ∧
      calculateSunTimes (.num 91) (.num 0) ⟨true, 2024, 0, 1, 0, 0, 0⟩ =
        .error .invalidCoordinates ∧
      generateSunPath (.num 91) (.num 0) ⟨true, 2024, 0, 1, 0, 0, 0⟩ 15 =
        .error .invalidCoordinates ∧
      getDayNightStatus (.num 91) (.num 0) ⟨true, 2024, 0, 1, 0, 0, 0⟩ =
        .error .invalidCoordinates ∧
      getTimezoneForCoordinates "UTC" (.num 91) (.num 0) = .error .invalidCoordinates ∧
      calculateTimeForElevation (.num 91) (.num 0) ⟨true, 2024, 0, 1, 0, 0, 0⟩ 0 true =
        .error .invalidCoordinates) :=
  ⟨by simp only [coordArgsInvalid]; norm_num,
    c9_theorem (.num 91) (.num 0) ⟨true, 2024, 0, 1, 0, 0, 0⟩ 15 0 true "UTC"
      (by simp only [coordArgsInvalid]; norm_num)⟩

lemma sunPathList_length (lat lon : ℝ) (d : JSDate) (i : ℝ) :
    (sunPathList lat lon d i).length = sunPathNumPoints i := by
  rw [sunPathList, List.length_map, List.length_range]

lemma sunPath_index_iff {i : ℝ} (hi : 0 < i) (k : ℕ) :
    (k : ℝ) * i < 1440 ↔ k < sunPathNumPoints i := by
  rw [sunPathNumPoints, Nat.lt_ceil, lt_div_iff₀ hi]

lemma generateSunPath_ok {lat lon : ℝ} {d : JSDate} {i : ℝ}
    (hval : validateCoordinates (.num lat) (.num lon) = true)
    (hnorm : normalizeDate d = .ok d) (h0 : 0 < i) (h1 : i ≤ 1440) :
    generateSunPath (.num lat) (.num lon) d i = .ok (sunPathList lat lon d i) := by
  simp only [generateSunPath, hval, hnorm, not_true, if_false, JSNum.val]
  rw [if_neg (by push_neg; exact ⟨h0, h1⟩)]

/-- C2 counterexample input date: 2024-06-21. -/
def c2Date : JSDate := ⟨true, 2024, 5, 21, 0, 0, 0⟩

/-- C2 counterexample: at the in-range interval 7 the generated path has 206
points, and `206 * 7 ≠ 1440`, so the point count is not `1440 / 7`; moreover
the interval 1/2, outside `[1, 1440]`, is accepted rather than rejected. -/
theorem c2_counterexample :
    ((1 : ℝ) ≤ 7 ∧ (7 : ℝ) ≤ 1440) ∧
    generateSunPath (.num 0) (.num 0) c2Date 7 = .ok (sunPathList 0 0 c2Date 7) ∧
    (sunPathList 0 0 c2Date 7).length = 206 ∧ (206 : ℝ) * 7 ≠ 1440 ∧
    ((1 / 2 : ℝ) < 1 ∧
      generateSunPath (.num 0) (.num 0) c2Date (1 / 2) =
        .ok (sunPathList 0 0 c2Date (1 / 2))) := by
  have hval := validateCoordinates_true (a := 0) (b := 0)
    (by norm_num) (by norm_num) (by norm_num) (by norm_num)
  have hnorm : normalizeDate c2Date = .ok c2Date :=
    normalizeDate_ok rfl (by norm_num [c2Date]) (by norm_num [c2Date])
  refine ⟨⟨by norm_num, by norm_num⟩,
    generateSunPath_ok hval hnorm (by norm_num) (by norm_num), ?_, by norm_num,
    by norm_num, generateSunPath_ok hval hnorm (by norm_num) (by norm_num)⟩
  rw [sunPathList_length, sunPathNumPoints,
    Nat.ceil_eq_iff (by norm_num : (206 : ℕ) ≠ 0)]
  norm_num

/-- C2 (amended): `generateSunPath` rejects exactly the intervals outside
`(0, 1440]`; an accepted interval yields `⌈1440 / intervalMinutes⌉` points —
the loop index set is `{k | k * intervalMinutes < 1440}` — which equals
`1440 / intervalMinutes` exactly when the interval divides 1440. -/
theorem c2_theorem (lat lon : ℝ) (d : JSDate) (i : ℝ)
    (h1 : -90 ≤ lat) (h2 : lat ≤ 90) (h3 : -180 ≤ lon) (h4 : lon ≤ 180)
    (hv : d.valid = true) (hy1 : 1000 ≤ d.year) (hy2 : d.year ≤ 3000) :
    (i ≤ 0 ∨ 1440 < i →
      generateSunPath (.num lat) (.num lon) d i = .error .intervalOutOfRange) ∧
    (0 < i → i ≤ 1440 →
      generateSunPath (.num lat) (.num lon) d i = .ok (sunPathList lat lon d i) ∧
      (sunPathList lat lon d i).length = ⌈(1440 : ℝ) / i⌉₊ ∧
      (∀ k : ℕ, ((k : ℝ) * i < 1440 ↔ k < (sunPathList lat lon d i).length)) ∧
      (∀ n : ℕ, 0 < n → i = 1440 / (n : ℝ) →
        ((sunPathList lat lon d i).length : ℝ) * i = 1440)) := by
  have hval := validateCoordinates_true h1 h2 h3 h4
  have hnorm := normalizeDate_ok hv hy1 hy2
  constructor
  · intro hbad
    simp only [generateSunPath, hval, not_true, if_false, JSNum.val]
    rw [if_pos hbad]
  · intro hi0 hi1
    refine ⟨generateSunPath_ok hval hnorm hi0 hi1, sunPathList_length lat lon d i, ?_, ?_⟩
    · intro k
      rw [sunPathList_length]
      exact sunPath_index_iff hi0 k
    · intro n hn hdiv
      have hn0 : (n : ℝ) ≠ 0 := Nat.cast_ne_zero.mpr hn.ne'
      have hlen : (sunPathList lat lon d i).length = n := by
        rw [sunPathList_length, sunPathNumPoints, hdiv]
        rw [div_div_cancel₀ (by norm_num)]
        · exact Nat.ceil_natCast n
      rw [hlen, hdiv]
      field_simp

/-- C2 witness: the amended statement applied at the equator with valid date
2024-06-21 and interval 60. -/
theorem c2_witness :
    ((-90 : ℝ) ≤ 0 ∧ (0 : ℝ) ≤ 90 ∧ (-180 : ℝ) ≤ 0 ∧ (0 : ℝ) ≤ 180 ∧
      c2Date.valid = true ∧ (1000 : ℤ) ≤ c2Date.year ∧ c2Date.year ≤ 3000) ∧
    (((60 : ℝ) ≤ 0 ∨ (1440 : ℝ) < 60 →
      generateSunPath (.num 0) (.num 0) c2Date 60 = .error .intervalOutOfRange) ∧
    ((0 : ℝ) < 60 → (60 : ℝ) ≤ 1440 →
      generateSunPath (.num 0) (.num 0) c2Date 60 = .ok (sunPathList 0 0 c2Date 60) ∧
      (sunPathList 0 0 c2Date 60).length = ⌈(1440 : ℝ) / 60⌉₊ ∧
      (∀ k : ℕ, ((k : ℝ) * 60 < 1440 ↔ k < (sunPathList 0 0 c2Date 60).length)) ∧
      (∀ n : ℕ, 0 < n → (60 : ℝ) = 1440 / (n : ℝ) →
        ((sunPathList 0 0 c2Date 60).length : ℝ) * 60 = 1440))) :=
  ⟨⟨by norm_num, by norm_num, by norm_num, by norm_num, rfl,
      by norm_num [c2Date], by norm_num [c2Date]⟩,
    c2_theorem 0 0 c2Date 60 (by norm_num) (by norm_num) (by norm_num) (by norm_num)
      rfl (by norm_num [c2Date]) (by norm_num [c2Date])⟩

/-- C4 counterexample date: a valid `Date` in calendar year 500. -/
def c4Date : JSDate := ⟨true, 500, 5, 21, 12, 0, 0⟩

/-- C4 counterexample: `calculateSunPosition` accepts a finite date whose year
is outside [1000, 3000] and computes a position instead of failing. -/
theorem c4_counterexample :
    c4Date.valid = true ∧ c4Date.year = 500 ∧ c4Date.year < 1000 ∧
    calculateSunPosition (.num 0) (.num 0) c4Date = .ok (sunPositionCore 0 0 c4Date) := by
  have hval := validateCoordinates_true (a := 0) (b := 0)
    (by norm_num) (by norm_num) (by norm_num) (by norm_num)
  exact ⟨rfl, rfl, by norm_num [c4Date],
    by simp [calculateSunPosition, hval, c4Date, JSNum.val]⟩

/-- C4 (amended): for valid coordinates, `calculateSunPosition` fails with the
invalid-instant error exactly when the date is an invalid `Date` (`NaN`
time); the calendar-year range [1000, 3000] is enforced by `normalizeDate`
(called by the sun-times entry points), not by `calculateSunPosition`. -/
theorem c4_theorem (lat lon : ℝ) (d : JSDate)
    (h1 : -90 ≤ lat) (h2 : lat ≤ 90) (h3 : -180 ≤ lon) (h4 : lon ≤ 180) :
    (calculateSunPosition (.num lat) (.num lon) d = .error .invalidDate ↔
      d.valid = false) ∧
    (d.valid = true →
      calculateSunPosition (.num lat) (.num lon) d = .ok (sunPositionCore lat lon d)) ∧
    (normalizeDate d = .error .yearOutOfRange ↔
      d.valid = true ∧ (d.year < 1000 ∨ 3000 < d.year)) := by
  have hval := validateCoordinates_true h1 h2 h3 h4
  refine ⟨?_, ?_, ?_⟩
  · cases hd : d.valid <;> simp [calculateSunPosition, hval, hd, JSNum.val]
  · intro hd
    simp [calculateSunPosition, hval, hd, JSNum.val]
  · cases hd : d.valid
    · simp [normalizeDate, hd]
    · by_cases hy : d.year < 1000 ∨ d.year > 3000 <;> simp [normalizeDate, hd, hy]

/-- C4 witness: the amended characterisation applied at the equator to the
valid date 2024-06-21. -/
theorem c4_witness :
    ((-90 : ℝ) ≤ 0 ∧ (0 : ℝ) ≤ 90 ∧ (-180 : ℝ) ≤ 0 ∧ (0 : ℝ) ≤ 180) ∧
    ((calculateSunPosition (.num 0) (.num 0) c2Date = .error .invalidDate ↔
        c2Date.valid = false) ∧
      (c2Date.valid = true →
        calculateSunPosition (.num 0) (.num 0) c2Date = .ok (sunPositionCore 0 0 c2Date)) ∧
      (normalizeDate c2Date = .error .yearOutOfRange ↔
        c2Date.valid = true ∧ (c2Date.year < 1000 ∨ 3000 < c2Date.year))) :=
  ⟨⟨by norm_num, by norm_num, by norm_num, by norm_num⟩,
    c4_theorem 0 0 c2Date (by norm_num) (by norm_num) (by norm_num) (by norm_num)⟩

lemma toDegrees_arcsin_mem (u : ℝ) :
    -90 ≤ toDegrees (arcsin u) ∧ toDegrees (arcsin u) ≤ 90 := by
  have h1 := neg_pi_div_two_le_arcsin u
  have h2 := arcsin_le_pi_div_two u
  have hπ : (0 : ℝ) < π := pi_pos
  unfold toDegrees
  constructor
  · rw [le_div_iff₀ hπ]
    nlinarith
  · rw [div_le_iff₀ hπ]
    nlinarith

lemma toDegrees_atan2_mem (y x : ℝ) :
    -180 < toDegrees (atan2 y x) ∧ toDegrees (atan2 y x) ≤ 180 := by
  have h1 : -π < atan2 y x := Complex.neg_pi_lt_arg _
  have h2 : atan2 y x ≤ π := Complex.arg_le_pi _
  have hπ : (0 : ℝ) < π := pi_pos
  unfold toDegrees
  constructor
  · rw [lt_div_iff₀ hπ]
    nlinarith
  · rw [div_le_iff₀ hπ]
    nlinarith

lemma azimuth_wrap_mem {a : ℝ} (h1 : 0 < a) (h2 : a ≤ 360) :
    0 ≤ (if (if a ≥ 360 then a - 360 else a) < 0 then (if a ≥ 360 then a - 360 else a) + 360
         else (if a ≥ 360 then a - 360 else a)) ∧
    (if (if a ≥ 360 then a - 360 else a) < 0 then (if a ≥ 360 then a - 360 else a) + 360
     else (if a ≥ 360 then a - 360 else a)) < 360 := by
  split_ifs <;> constructor <;> linarith

lemma azimuth_from_atan2 (y x : ℝ) :
    0 ≤ (if (if toDegrees (atan2 y x) + 180 ≥ 360 then toDegrees (atan2 y x) + 180 - 360
              else toDegrees (atan2 y x) + 180) < 0 then
           (if toDegrees (atan2 y x) + 180 ≥ 360 then toDegrees (atan2 y x) + 180 - 360
            else toDegrees (atan2 y x) + 180) + 360
         else (if toDegrees (atan2 y x) + 180 ≥ 360 then toDegrees (atan2 y x) + 180 - 360
               else toDegrees (atan2 y x) + 180)) ∧
    (if (if toDegrees (atan2 y x) + 180 ≥ 360 then toDegrees (atan2 y x) + 180 - 360
          else toDegrees (atan2 y x) + 180) < 0 then
       (if toDegrees (atan2 y x) + 180 ≥ 360 then toDegrees (atan2 y x) + 180 - 360
        else toDegrees (atan2 y x) + 180) + 360
     else (if toDegrees (atan2 y x) + 180 ≥ 360 then toDegrees (atan2 y x) + 180 - 360
           else toDegrees (atan2 y x) + 180)) < 360 := by
  obtain ⟨h1, h2⟩ := toDegrees_atan2_mem y x
  exact azimuth_wrap_mem (by linarith) (by linarith)

lemma sunPositionCore_azimuth_mem (lat lon : ℝ) (d : JSDate) :
    0 ≤ (sunPositionCore lat lon d).azimuth ∧ (sunPositionCore lat lon d).azimuth < 360 := by
  unfold sunPositionCore
  dsimp only
  exact azimuth_from_atan2 _ _

lemma sunPositionCore_elevation_mem (lat lon : ℝ) (d : JSDate) :
    -90 ≤ (sunPositionCore lat lon d).elevation ∧ (sunPositionCore lat lon d).elevation ≤ 90 := by
  unfold sunPositionCore
  dsimp only
  exact toDegrees_arcsin_mem _

/-- C1 (amended): for every valid coordinate and valid instant the computed
azimuth lies in `[0, 360)` and the computed elevation lies in the closed band
`[-90, 90]` (the endpoints are attained in exact arithmetic when the sun
stands exactly at the zenith or nadir, see the counterexample). -/
theorem c1_theorem (lat lon : ℝ) (d : JSDate)
    (h1 : -90 ≤ lat) (h2 : lat ≤ 90) (h3 : -180 ≤ lon) (h4 : lon ≤ 180)
    (hv : d.valid = true) :
    calculateSunPosition (.num lat) (.num lon) d = .ok (sunPositionCore lat lon d) ∧
    0 ≤ (sunPositionCore lat lon d).azimuth ∧ (sunPositionCore lat lon d).azimuth < 360 ∧
    -90 ≤ (sunPositionCore lat lon d).elevation ∧
    (sunPositionCore lat lon d).elevation ≤ 90 := by
  have hval := validateCoordinates_true h1 h2 h3 h4
  obtain ⟨a1, a2⟩ := sunPositionCore_azimuth_mem lat lon d
  obtain ⟨e1, e2⟩ := sunPositionCore_elevation_mem lat lon d
  exact ⟨by simp [calculateSunPosition, hval, hv, JSNum.val], a1, a2, e1, e2⟩

/-- C1 witness: the range theorem applied at the origin on 2024-06-21. -/
theorem c1_witness :
    ((-90 : ℝ) ≤ 0 ∧ (0 : ℝ) ≤ 90 ∧ (-180 : ℝ) ≤ 0 ∧ (0 : ℝ) ≤ 180 ∧
      c2Date.valid = true) ∧
    (calculateSunPosition (.num 0) (.num 0) c2Date = .ok (sunPositionCore 0 0 c2Date) ∧
      0 ≤ (sunPositionCore 0 0 c2Date).azimuth ∧
      (sunPositionCore 0 0 c2Date).azimuth < 360 ∧
      -90 ≤ (sunPositionCore 0 0 c2Date).elevation ∧
      (sunPositionCore 0 0 c2Date).elevation ≤ 90) :=
  ⟨⟨by norm_num, by norm_num, by norm_num, by norm_num, rfl⟩,
    c1_theorem 0 0 c2Date (by norm_num) (by norm_num) (by norm_num) (by norm_num) rfl⟩

lemma fourteenForty_pos : (0 : ℝ) < 1440 := by norm_num

/-- The date of the C1 counterexample: 2024-06-21T12:00:00Z. -/
def c1Date : JSDate := ⟨true, 2024, 5, 21, 12, 0, 0⟩

/-- Latitude equal to the model's solar declination on the counterexample
date: a valid latitude at which the sun passes exactly through the zenith. -/
noncomputable def c1Lat : ℝ := getSolarDeclination (getJulianDay c1Date)

/-- Longitude (within `[-180, 180)`) chosen so that the model's hour angle at
12:00:00 UTC on the counterexample date is an exact multiple of 360°. -/
noncomputable def c1Lon : ℝ :=
  toIcoMod fourteenForty_pos (-720) (-(getEquationOfTime (getJulianDay c1Date))) / 4

/-- If the true-solar-time expression evaluates to `720 - k * 1440` minutes,
the hour angle is a multiple of 360°, and at latitude equal to the date's
declination the computed elevation is exactly 90°. -/
lemma zenith_elevation (lon : ℝ) (d : JSDate) (k : ℤ)
    (h : (d.hour : ℝ) * 60 + (d.minute : ℝ) + (d.second : ℝ) / 60 +
         (getEquationOfTime (getJulianDay d) + 4 * lon) = 720 - (k : ℝ) * 1440) :
    (sunPositionCore (getSolarDeclination (getJulianDay d)) lon d).elevation = 90 := by
  unfold sunPositionCore
  dsimp only
  rw [h]
  have hH : toRadians ((720 - (k : ℝ) * 1440) / 4 - 180) = ((-k : ℤ) : ℝ) * (2 * π) := by
    unfold toRadians
    push_cast
    ring
  rw [hH, Real.cos_int_mul_two_pi]
  have hX : sin (toRadians (getSolarDeclination (getJulianDay d))) *
        sin (toRadians (getSolarDeclination (getJulianDay d))) +
      cos (toRadians (getSolarDeclination (getJulianDay d))) *
        cos (toRadians (getSolarDeclination (getJulianDay d))) * 1 = 1 := by
    have hs := sin_sq_add_cos_sq (toRadians (getSolarDeclination (getJulianDay d)))
    nlinarith [hs]
  rw [hX, Real.arcsin_one]
  unfold toDegrees
  field_simp
  ring

/-- C1 counterexample: a valid coordinate (latitude = the date's declination,
an explicitly constructed longitude) and a valid instant at which the
computed elevation equals 90 exactly, refuting `elevation < 90`. -/
theorem c1_counterexample :
    (-90 ≤ c1Lat ∧ c1Lat ≤ 90 ∧ -180 ≤ c1Lon ∧ c1Lon ≤ 180 ∧ c1Date.valid = true) ∧
    calculateSunPosition (.num c1Lat) (.num c1Lon) c1Date =
      .ok (sunPositionCore c1Lat c1Lon c1Date) ∧
    (sunPositionCore c1Lat c1Lon c1Date).elevation = 90 := by
  have hlat : -90 ≤ c1Lat ∧ c1Lat ≤ 90 := by
    unfold c1Lat getSolarDeclination
    exact toDegrees_arcsin_mem _
  have hlonm := toIcoMod_mem_Ico fourteenForty_pos (-720)
    (-(getEquationOfTime (getJulianDay c1Date)))
  rw [Set.mem_Ico] at hlonm
  have hlon : -180 ≤ c1Lon ∧ c1Lon ≤ 180 := by
    unfold c1Lon
    constructor
    · linarith [hlonm.1]
    · have := hlonm.2
      norm_num at this
      linarith
  have hel : (sunPositionCore c1Lat c1Lon c1Date).elevation = 90 := by
    rw [show c1Lat = getSolarDeclination (getJulianDay c1Date) from rfl]
    apply zenith_elevation c1Lon c1Date
      (toIcoDiv fourteenForty_pos (-720) (-(getEquationOfTime (getJulianDay c1Date))))
    have h := self_sub_toIcoMod fourteenForty_pos (-720)
      (-(getEquationOfTime (getJulianDay c1Date)))
    rw [zsmul_eq_mul] at h
    have h4 : 4 * c1Lon =
        toIcoMod fourteenForty_pos (-720) (-(getEquationOfTime (getJulianDay c1Date))) := by
      unfold c1Lon
      ring
    rw [show c1Date.hour = (12 : ℤ) from rfl, show c1Date.minute = (0 : ℤ) from rfl,
      show c1Date.second = (0 : ℤ) from rfl]
    push_cast
    rw [h4]
    linarith
  have hval := validateCoordinates_true hlat.1 hlat.2 hlon.1 hlon.2
  exact ⟨⟨hlat.1, hlat.2, hlon.1, hlon.2, rfl⟩,
    by simp [calculateSunPosition, hval, JSNum.val, show c1Date.valid = true from rfl], hel⟩

/-! ## Numerical evaluation of the model at the two solstice dates

`dec21Date` is 2024-12-21 and `c2Date` (reused) is 2024-06-21.  The rational
parts (Julian day, the `%`-reduced mean longitude `L` and mean anomaly `g`)
are evaluated exactly; the trigonometric parts are bounded by intervals. -/

/-- 2024-12-21 (midnight). -/
def dec21Date : JSDate := ⟨true, 2024, 11, 21, 0, 0, 0⟩

lemma dec21_jd : getJulianDay dec21Date = 707501.5 := by
  norm_num [getJulianDay, dec21Date]

lemma jun21_jd : getJulianDay c2Date = 707318.5 := by
  norm_num [getJulianDay, c2Date]

lemma dec21_L :
    jsMod (280.460 + 0.9856474 * ((707501.5 : ℝ) - 2451545.0)) 360 = -91.4812619 := by
  rw [jsMod_eq_ceil (by norm_num)]
  rw [show ⌈(280.460 + 0.9856474 * ((707501.5 : ℝ) - 2451545.0)) / 360⌉ = (-4774 : ℤ) by
    rw [Int.ceil_eq_iff]
    norm_num]
  norm_num

lemma dec21_g :
    jsMod (357.528 + 0.9856003 * ((707501.5 : ℝ) - 2451545.0)) 360 = -292.26881305 := by
  rw [jsMod_eq_ceil (by norm_num)]
  rw [show ⌈(357.528 + 0.9856003 * ((707501.5 : ℝ) - 2451545.0)) / 360⌉ = (-4773 : ℤ) by
    rw [Int.ceil_eq_iff]
    norm_num]
  norm_num

lemma jun21_L :
    jsMod (280.460 + 0.9856474 * ((707318.5 : ℝ) - 2451545.0)) 360 = -271.8547361 := by
  rw [jsMod_eq_ceil (by norm_num)]
  rw [show ⌈(280.460 + 0.9856474 * ((707318.5 : ℝ) - 2451545.0)) / 360⌉ = (-4774 : ℤ) by
    rw [Int.ceil_eq_iff]
    norm_num]
  norm_num

lemma jun21_g :
    jsMod (357.528 + 0.9856003 * ((707318.5 : ℝ) - 2451545.0)) 360 = -112.63366795 := by
  rw [jsMod_eq_ceil (by norm_num)]
  rw [show ⌈(357.528 + 0.9856003 * ((707318.5 : ℝ) - 2451545.0)) / 360⌉ = (-4774 : ℤ) by
    rw [Int.ceil_eq_iff]
    norm_num]
  norm_num

lemma dec21_declRad :
    toRadians (getSolarDeclination (getJulianDay dec21Date)) =
      arcsin (sin (toRadians 23.439) * sin (toRadians (-91.4812619 +
        1.915 * sin (toRadians (-292.26881305)) +
        0.020 * sin (2 * toRadians (-292.26881305))))) := by
  rw [dec21_jd]
  unfold getSolarDeclination
  dsimp only
  rw [dec21_L, dec21_g, toRadians_toDegrees]

lemma jun21_declRad :
    toRadians (getSolarDeclination (getJulianDay c2Date)) =
      arcsin (sin (toRadians 23.439) * sin (toRadians (-271.8547361 +
        1.915 * sin (toRadians (-112.63366795)) +
        0.020 * sin (2 * toRadians (-112.63366795))))) := by
  rw [jun21_jd]
  unfold getSolarDeclination
  dsimp only
  rw [jun21_L, jun21_g, toRadians_toDegrees]

lemma sin_eps_mem :
    0.3962 ≤ sin (toRadians 23.439) ∧ sin (toRadians 23.439) ≤ 0.3992 := by
  rw [show toRadians (23.439 : ℝ) = (23.439 / 180 : ℝ) * π by unfold toRadians; ring]
  have hx := mul_pi_mem (le_refl ((23.439 / 180 : ℝ))) (le_refl ((23.439 / 180 : ℝ)))
    (by norm_num) (by norm_num : (0.409087 : ℝ) ≤ 23.439 / 180 * 3.141592)
    (by norm_num : (23.439 / 180 : ℝ) * 3.141593 ≤ 0.409088)
  exact sin_bounds_of_mem hx.1 hx.2 (by norm_num) (by norm_num)
    (by norm_num : (0.3962 : ℝ) ≤ 0.409087 - 0.409087 ^ 3 / 6 - 0.409088 ^ 4 * (5 / 96))
    (by norm_num : (0.409088 : ℝ) - 0.409088 ^ 3 / 6 + 0.409088 ^ 4 * (5 / 96) ≤ 0.3992)

lemma sin85_lb : 0.9961 ≤ sin (toRadians 85) := by
  have heq : sin (toRadians 85) = cos ((1 / 36 : ℝ) * π) := by
    rw [show (1 / 36 : ℝ) * π = π / 2 - toRadians 85 by unfold toRadians; ring,
      Real.cos_pi_div_two_sub]
  rw [heq]
  have hx := mul_pi_mem (le_refl ((1 / 36 : ℝ))) (le_refl ((1 / 36 : ℝ)))
    (by norm_num) (by norm_num : (0.087266 : ℝ) ≤ 1 / 36 * 3.141592)
    (by norm_num : (1 / 36 : ℝ) * 3.141593 ≤ 0.087267)
  have h := cos_bounds_of_mem hx.1 hx.2 (by norm_num) (by norm_num)
    (by norm_num : (0.9961 : ℝ) ≤ 1 - 0.087267 ^ 2 / 2 - 0.087267 ^ 4 * (5 / 96))
    (le_refl (1 - (0.087266 : ℝ) ^ 2 / 2 + 0.087267 ^ 4 * (5 / 96)))
  exact h.1

lemma cos85_mem : 0 < cos (toRadians 85) ∧ cos (toRadians 85) ≤ 0.0872 := by
  have heq : cos (toRadians 85) = sin ((1 / 36 : ℝ) * π) := by
    rw [show (1 / 36 : ℝ) * π = π / 2 - toRadians 85 by unfold toRadians; ring,
      Real.sin_pi_div_two_sub]
  rw [heq]
  have hx := mul_pi_mem (le_refl ((1 / 36 : ℝ))) (le_refl ((1 / 36 : ℝ)))
    (by norm_num) (by norm_num : (0.087266 : ℝ) ≤ 1 / 36 * 3.141592)
    (by norm_num : (1 / 36 : ℝ) * 3.141593 ≤ 0.087267)
  have h := sin_bounds_of_mem hx.1 hx.2 (by norm_num) (by norm_num)
    (by norm_num : (0.0871 : ℝ) ≤ 0.087266 - 0.087266 ^ 3 / 6 - 0.087267 ^ 4 * (5 / 96))
    (by norm_num : (0.087267 : ℝ) - 0.087267 ^ 3 / 6 + 0.087267 ^ 4 * (5 / 96) ≤ 0.0872)
  exact ⟨by linarith [h.1], h.2⟩

lemma s0_mem :
    -0.01454 ≤ sin (toRadians (-0.833)) ∧ sin (toRadians (-0.833)) ≤ -0.01453 := by
  have heq : sin (toRadians (-0.833)) = -sin ((0.833 / 180 : ℝ) * π) := by
    rw [show toRadians (-0.833 : ℝ) = -((0.833 / 180 : ℝ) * π) by unfold toRadians; ring,
      Real.sin_neg]
  rw [heq]
  have hx := mul_pi_mem (le_refl ((0.833 / 180 : ℝ))) (le_refl ((0.833 / 180 : ℝ)))
    (by norm_num) (by norm_num : (0.014538 : ℝ) ≤ 0.833 / 180 * 3.141592)
    (by norm_num : (0.833 / 180 : ℝ) * 3.141593 ≤ 0.014539)
  have h := sin_bounds_of_mem hx.1 hx.2 (by norm_num) (by norm_num)
    (by norm_num : (0.01453 : ℝ) ≤ 0.014538 - 0.014538 ^ 3 / 6 - 0.014539 ^ 4 * (5 / 96))
    (by norm_num : (0.014539 : ℝ) - 0.014539 ^ 3 / 6 + 0.014539 ^ 4 * (5 / 96) ≤ 0.01454)
  constructor <;> linarith [h.1, h.2]

lemma dec21_sin_g_mem :
    0.9232 ≤ sin (toRadians (-292.26881305)) ∧ sin (toRadians (-292.26881305)) ≤ 0.9257 := by
  have h1 : toRadians (-292.26881305) = (1354623739 / 3600000000 : ℝ) * π - 2 * π := by
    unfold toRadians
    ring
  rw [h1, Real.sin_sub_two_pi, ← Real.cos_pi_div_two_sub,
    show π / 2 - (1354623739 / 3600000000 : ℝ) * π = (445376261 / 3600000000 : ℝ) * π by ring]
  have hx := mul_pi_mem (le_refl ((445376261 / 3600000000 : ℝ)))
    (le_refl ((445376261 / 3600000000 : ℝ))) (by norm_num)
    (by norm_num : (0.388664 : ℝ) ≤ 445376261 / 3600000000 * 3.141592)
    (by norm_num : (445376261 / 3600000000 : ℝ) * 3.141593 ≤ 0.388665)
  exact cos_bounds_of_mem hx.1 hx.2 (by norm_num) (by norm_num)
    (by norm_num : (0.9232 : ℝ) ≤ 1 - 0.388665 ^ 2 / 2 - 0.388665 ^ 4 * (5 / 96))
    (by norm_num : (1 : ℝ) - 0.388664 ^ 2 / 2 + 0.388665 ^ 4 * (5 / 96) ≤ 0.9257)

lemma dec21_sin_2g_mem :
    0.68 ≤ sin (2 * toRadians (-292.26881305)) ∧
      sin (2 * toRadians (-292.26881305)) ≤ 0.7181 := by
  have h1 : 2 * toRadians (-292.26881305) =
      ((1354623739 / 1800000000 : ℝ) * π - 2 * π) - 2 * π := by
    unfold toRadians
    ring
  rw [h1, Real.sin_sub_two_pi, Real.sin_sub_two_pi, ← Real.sin_pi_sub,
    show π - (1354623739 / 1800000000 : ℝ) * π = (445376261 / 1800000000 : ℝ) * π by ring]
  have hx := mul_pi_mem (le_refl ((445376261 / 1800000000 : ℝ)))
    (le_refl ((445376261 / 1800000000 : ℝ))) (by norm_num)
    (by norm_num : (0.777328 : ℝ) ≤ 445376261 / 1800000000 * 3.141592)
    (by norm_num : (445376261 / 1800000000 : ℝ) * 3.141593 ≤ 0.777329)
  exact sin_bounds_of_mem hx.1 hx.2 (by norm_num) (by norm_num)
    (by norm_num : (0.68 : ℝ) ≤ 0.777328 - 0.777328 ^ 3 / 6 - 0.777329 ^ 4 * (5 / 96))
    (by norm_num : (0.777329 : ℝ) - 0.777329 ^ 3 / 6 + 0.777329 ^ 4 * (5 / 96) ≤ 0.7181)

lemma dec21_sin_lambda_le {lam : ℝ} (h1 : -89.6998 ≤ lam) (h2 : lam ≤ -89.6941) :
    sin (toRadians lam) ≤ -0.9999 := by
  have heq : sin (toRadians lam) = -cos ((lam / 180 + 1 / 2) * π) := by
    rw [show (lam / 180 + 1 / 2) * π = toRadians lam + π / 2 by unfold toRadians; ring,
      Real.cos_add_pi_div_two]
    ring
  rw [heq]
  have hw1 : (0.001667 : ℝ) ≤ lam / 180 + 1 / 2 := by linarith
  have hw2 : lam / 180 + 1 / 2 ≤ 0.0017 := by linarith
  have hx := mul_pi_mem hw1 hw2 (by norm_num)
    (by norm_num : (0.005237 : ℝ) ≤ 0.001667 * 3.141592)
    (by norm_num : (0.0017 : ℝ) * 3.141593 ≤ 0.005341)
  have h := cos_bounds_of_mem hx.1 hx.2 (by norm_num) (by norm_num)
    (by norm_num : (0.9999 : ℝ) ≤ 1 - 0.005341 ^ 2 / 2 - 0.005341 ^ 4 * (5 / 96))
    (le_refl ((1 : ℝ) - 0.005237 ^ 2 / 2 + 0.005341 ^ 4 * (5 / 96)))
  linarith [h.1]

lemma jun21_sin_g_mem :
    -0.9233 ≤ sin (toRadians (-112.63366795)) ∧
      sin (toRadians (-112.63366795)) ≤ -0.9207 := by
  have h1 : toRadians (-112.63366795) = -((2252673359 / 3600000000 : ℝ) * π) := by
    unfold toRadians
    ring
  rw [h1, Real.sin_neg, ← Real.sin_pi_sub,
    show π - (2252673359 / 3600000000 : ℝ) * π = (1347326641 / 3600000000 : ℝ) * π by ring,
    ← Real.cos_pi_div_two_sub,
    show π / 2 - (1347326641 / 3600000000 : ℝ) * π = (452673359 / 3600000000 : ℝ) * π by ring]
  have hx := mul_pi_mem (le_refl ((452673359 / 3600000000 : ℝ)))
    (le_refl ((452673359 / 3600000000 : ℝ))) (by norm_num)
    (by norm_num : (0.395031 : ℝ) ≤ 452673359 / 3600000000 * 3.141592)
    (by norm_num : (452673359 / 3600000000 : ℝ) * 3.141593 ≤ 0.395033)
  have h := cos_bounds_of_mem hx.1 hx.2 (by norm_num) (by norm_num)
    (by norm_num : (0.9207 : ℝ) ≤ 1 - 0.395033 ^ 2 / 2 - 0.395033 ^ 4 * (5 / 96))
    (by norm_num : (1 : ℝ) - 0.395031 ^ 2 / 2 + 0.395033 ^ 4 * (5 / 96) ≤ 0.9233)
  constructor <;> linarith [h.1, h.2]

lemma jun21_sin_2g_mem :
    0.6875 ≤ sin (2 * toRadians (-112.63366795)) ∧
      sin (2 * toRadians (-112.63366795)) ≤ 0.7282 := by
  have h1 : 2 * toRadians (-112.63366795) =
      (1347326641 / 1800000000 : ℝ) * π - 2 * π := by
    unfold toRadians
    ring
  rw [h1, Real.sin_sub_two_pi, ← Real.sin_pi_sub,
    show π - (1347326641 / 1800000000 : ℝ) * π = (452673359 / 1800000000 : ℝ) * π by ring]
  have hx := mul_pi_mem (le_refl ((452673359 / 1800000000 : ℝ)))
    (le_refl ((452673359 / 1800000000 : ℝ))) (by norm_num)
    (by norm_num : (0.790063 : ℝ) ≤ 452673359 / 1800000000 * 3.141592)
    (by norm_num : (452673359 / 1800000000 : ℝ) * 3.141593 ≤ 0.790065)
  exact sin_bounds_of_mem hx.1 hx.2 (by norm_num) (by norm_num)
    (by norm_num : (0.6875 : ℝ) ≤ 0.790063 - 0.790063 ^ 3 / 6 - 0.790065 ^ 4 * (5 / 96))
    (by norm_num : (0.790065 : ℝ) - 0.790065 ^ 3 / 6 + 0.790065 ^ 4 * (5 / 96) ≤ 0.7282)

lemma jun21_sin_lambda_mem {lam : ℝ} (h1 : -273.6092 ≤ lam) (h2 : lam ≤ -273.6033) :
    0.998 ≤ sin (toRadians lam) ∧ sin (toRadians lam) ≤ 0.99803 := by
  have heq : sin (toRadians lam) = cos ((-(3 / 2) - lam / 180) * π) := by
    rw [show (-(3 / 2) - lam / 180) * π = π / 2 - (toRadians lam + 2 * π) by
        unfold toRadians; ring,
      Real.cos_pi_div_two_sub, Real.sin_add_two_pi]
  rw [heq]
  have hw1 : (0.020018 : ℝ) ≤ -(3 / 2) - lam / 180 := by linarith
  have hw2 : -(3 / 2) - lam / 180 ≤ 0.020052 := by linarith
  have hx := mul_pi_mem hw1 hw2 (by norm_num)
    (by norm_num : (0.062888 : ℝ) ≤ 0.020018 * 3.141592)
    (by norm_num : (0.020052 : ℝ) * 3.141593 ≤ 0.062996)
  exact cos_bounds_of_mem hx.1 hx.2 (by norm_num) (by norm_num)
    (by norm_num : (0.998 : ℝ) ≤ 1 - 0.062996 ^ 2 / 2 - 0.062996 ^ 4 * (5 / 96))
    (by norm_num : (1 : ℝ) - 0.062888 ^ 2 / 2 + 0.062996 ^ 4 * (5 / 96) ≤ 0.99803)

lemma dec21_u_mem :
    -0.3992 ≤ sin (toRadians 23.439) * sin (toRadians (-91.4812619 +
      1.915 * sin (toRadians (-292.26881305)) +
      0.020 * sin (2 * toRadians (-292.26881305)))) ∧
    sin (toRadians 23.439) * sin (toRadians (-91.4812619 +
      1.915 * sin (toRadians (-292.26881305)) +
      0.020 * sin (2 * toRadians (-292.26881305)))) ≤ -0.3961 := by
  obtain ⟨he1, he2⟩ := sin_eps_mem
  have he0 : (0 : ℝ) ≤ sin (toRadians 23.439) := by linarith
  obtain ⟨hg1, hg2⟩ := dec21_sin_g_mem
  obtain ⟨h2g1, h2g2⟩ := dec21_sin_2g_mem
  have hlam1 : (-89.6998 : ℝ) ≤ -91.4812619 + 1.915 * sin (toRadians (-292.26881305)) +
      0.020 * sin (2 * toRadians (-292.26881305)) := by linarith
  have hlam2 : (-91.4812619 : ℝ) + 1.915 * sin (toRadians (-292.26881305)) +
      0.020 * sin (2 * toRadians (-292.26881305)) ≤ -89.6941 := by linarith
  have hL1 := dec21_sin_lambda_le hlam1 hlam2
  have hL2 := Real.neg_one_le_sin (toRadians (-91.4812619 +
    1.915 * sin (toRadians (-292.26881305)) + 0.020 * sin (2 * toRadians (-292.26881305))))
  constructor
  · have h := mul_le_mul_of_nonneg_left hL2 he0
    nlinarith [h]
  · have h := mul_le_mul_of_nonneg_left hL1 he0
    nlinarith [h]

lemma dec21_cosH_gt : 1 < cosHourAngleFor 85 dec21Date := by
  unfold cosHourAngleFor
  dsimp only
  rw [show (⟨true, dec21Date.year, dec21Date.month, dec21Date.day, 0, 0, 0⟩ : JSDate)
      = dec21Date from rfl]
  rw [dec21_declRad]
  obtain ⟨hU1, hU2⟩ := dec21_u_mem
  set U := sin (toRadians 23.439) * sin (toRadians (-91.4812619 +
    1.915 * sin (toRadians (-292.26881305)) +
    0.020 * sin (2 * toRadians (-292.26881305)))) with hUdef
  rw [Real.sin_arcsin (by linarith) (by linarith), Real.cos_arcsin]
  obtain ⟨hc850, hc85⟩ := cos85_mem
  have hs85 := sin85_lb
  have hs85le := Real.sin_le_one (toRadians 85)
  obtain ⟨hs01, hs02⟩ := s0_mem
  have hsqpos : 0 < √(1 - U ^ 2) := Real.sqrt_pos.mpr (by nlinarith)
  have hsqle : √(1 - U ^ 2) ≤ 1 := Real.sqrt_le_one.mpr (by nlinarith)
  have hden : 0 < cos (toRadians 85) * √(1 - U ^ 2) := mul_pos hc850 hsqpos
  rw [lt_div_iff₀ hden]
  have hprod : 0.9961 * 0.3961 ≤ sin (toRadians 85) * (-U) :=
    mul_le_mul hs85 (by linarith) (by norm_num) (by linarith)
  have hden_le : cos (toRadians 85) * √(1 - U ^ 2) ≤ 0.0872 := by
    nlinarith [mul_le_mul_of_nonneg_left hsqle (le_of_lt hc850)]
  nlinarith [hprod, hden_le]

lemma jun21_u_mem :
    0.3954 ≤ sin (toRadians 23.439) * sin (toRadians (-271.8547361 +
      1.915 * sin (toRadians (-112.63366795)) +
      0.020 * sin (2 * toRadians (-112.63366795)))) ∧
    sin (toRadians 23.439) * sin (toRadians (-271.8547361 +
      1.915 * sin (toRadians (-112.63366795)) +
      0.020 * sin (2 * toRadians (-112.63366795)))) ≤ 0.3985 := by
  obtain ⟨he1, he2⟩ := sin_eps_mem
  have he0 : (0 : ℝ) ≤ sin (toRadians 23.439) := by linarith
  obtain ⟨hg1, hg2⟩ := jun21_sin_g_mem
  obtain ⟨h2g1, h2g2⟩ := jun21_sin_2g_mem
  have hlam1 : (-273.6092 : ℝ) ≤ -271.8547361 + 1.915 * sin (toRadians (-112.63366795)) +
      0.020 * sin (2 * toRadians (-112.63366795)) := by linarith
  have hlam2 : (-271.8547361 : ℝ) + 1.915 * sin (toRadians (-112.63366795)) +
      0.020 * sin (2 * toRadians (-112.63366795)) ≤ -273.6033 := by linarith
  obtain ⟨hL1, hL2⟩ := jun21_sin_lambda_mem hlam1 hlam2
  constructor
  · have h := mul_le_mul he1 hL1 (by norm_num) he0
    nlinarith [h]
  · have h := mul_le_mul he2 hL2 (by linarith) (by norm_num)
    nlinarith [h]

lemma jun21_cosH_lt : cosHourAngleFor 85 c2Date < -1 := by
  unfold cosHourAngleFor
  dsimp only
  rw [show (⟨true, c2Date.year, c2Date.month, c2Date.day, 0, 0, 0⟩ : JSDate)
      = c2Date from rfl]
  rw [jun21_declRad]
  obtain ⟨hU1, hU2⟩ := jun21_u_mem
  set U := sin (toRadians 23.439) * sin (toRadians (-271.8547361 +
    1.915 * sin (toRadians (-112.63366795)) +
    0.020 * sin (2 * toRadians (-112.63366795)))) with hUdef
  rw [Real.sin_arcsin (by linarith) (by linarith), Real.cos_arcsin]
  obtain ⟨hc850, hc85⟩ := cos85_mem
  have hs85 := sin85_lb
  have hs85le := Real.sin_le_one (toRadians 85)
  obtain ⟨hs01, hs02⟩ := s0_mem
  have hsqpos : 0 < √(1 - U ^ 2) := Real.sqrt_pos.mpr (by nlinarith)
  have hsqle : √(1 - U ^ 2) ≤ 1 := Real.sqrt_le_one.mpr (by nlinarith)
  have hden : 0 < cos (toRadians 85) * √(1 - U ^ 2) := mul_pos hc850 hsqpos
  rw [div_lt_iff₀ hden]
  have hprod : 0.9961 * 0.3954 ≤ sin (toRadians 85) * U :=
    mul_le_mul hs85 hU1 (by norm_num) (by linarith)
  have hden_le : cos (toRadians 85) * √(1 - U ^ 2) ≤ 0.0872 := by
    nlinarith [mul_le_mul_of_nonneg_left hsqle (le_of_lt hc850)]
  nlinarith [hprod, hden_le]

lemma sunriseCore_none_iff (lat lon : ℝ) (d : JSDate) :
    sunriseCore lat lon d = none ↔
      1 < cosHourAngleFor lat d ∨ cosHourAngleFor lat d < -1 := by
  unfold sunriseCore
  dsimp only
  split_ifs with hc1 hc2
  · simpa using Or.inl hc1
  · simpa using Or.inr hc2
  · simp only [reduceCtorEq, false_iff]
    exact fun h => h.elim hc1 hc2

lemma sunriseCore_some (lat lon : ℝ) (d : JSDate)
    (hc1 : ¬ cosHourAngleFor lat d > 1) (hc2 : ¬ cosHourAngleFor lat d < -1) :
    sunriseCore lat lon d =
      some (720 - 4 * toDegrees (arccos (cosHourAngleFor lat d)) -
        (getEquationOfTime (getJulianDay ⟨true, d.year, d.month, d.day, 0, 0, 0⟩) +
          4 * lon)) := by
  unfold sunriseCore
  dsimp only
  rw [if_neg hc1, if_neg hc2]

lemma sunsetCore_some (lat lon : ℝ) (d : JSDate)
    (hc1 : ¬ cosHourAngleFor lat d > 1) (hc2 : ¬ cosHourAngleFor lat d < -1) :
    sunsetCore lat lon d =
      some (720 + 4 * toDegrees (arccos (cosHourAngleFor lat d)) -
        (getEquationOfTime (getJulianDay ⟨true, d.year, d.month, d.day, 0, 0, 0⟩) +
          4 * lon)) := by
  unfold sunsetCore
  dsimp only
  rw [if_neg hc1, if_neg hc2]

/-- C3: for every valid coordinate, `calculateSunrise` returns null exactly
when the closed-form `cosHourAngle` lies outside `[-1, 1]`, and otherwise
returns an instant; in particular at latitude 85, longitude 0 it returns null
on both 2024-12-21 (polar night, `cosHourAngle > 1`) and 2024-06-21 (polar
day, `cosHourAngle < -1`). -/
theorem c3_theorem :
    (∀ (lat lon : ℝ) (d : JSDate), -90 ≤ lat → lat ≤ 90 → -180 ≤ lon → lon ≤ 180 →
      (calculateSunrise (.num lat) (.num lon) d = .ok none ↔
        1 < cosHourAngleFor lat d ∨ cosHourAngleFor lat d < -1) ∧
      (¬ (1 < cosHourAngleFor lat d ∨ cosHourAngleFor lat d < -1) →
        calculateSunrise (.num lat) (.num lon) d =
          .ok (some (720 - 4 * toDegrees (arccos (cosHourAngleFor lat d)) -
            (getEquationOfTime (getJulianDay ⟨true, d.year, d.month, d.day, 0, 0, 0⟩) +
              4 * lon))))) ∧
    calculateSunrise (.num 85) (.num 0) dec21Date = .ok none ∧
    calculateSunrise (.num 85) (.num 0) c2Date = .ok none := by
  have hval85 := validateCoordinates_true (a := 85) (b := 0)
    (by norm_num) (by norm_num) (by norm_num) (by norm_num)
  refine ⟨?_, ?_, ?_⟩
  · intro lat lon d h1 h2 h3 h4
    have hval := validateCoordinates_true h1 h2 h3 h4
    have hcs : calculateSunrise (.num lat) (.num lon) d = .ok (sunriseCore lat lon d) := by
      simp [calculateSunrise, hval, JSNum.val]
    constructor
    · rw [hcs]
      simp only [Except.ok.injEq]
      exact sunriseCore_none_iff lat lon d
    · intro hn
      push_neg at hn
      rw [hcs, sunriseCore_some lat lon d (not_lt.mpr hn.1) (not_lt.mpr hn.2)]
  · have hcs : calculateSunrise (.num 85) (.num 0) dec21Date =
        .ok (sunriseCore 85 0 dec21Date) := by
      simp [calculateSunrise, hval85, JSNum.val]
    rw [hcs, (sunriseCore_none_iff 85 0 dec21Date).mpr (Or.inl dec21_cosH_gt)]
  · have hcs : calculateSunrise (.num 85) (.num 0) c2Date =
        .ok (sunriseCore 85 0 c2Date) := by
      simp [calculateSunrise, hval85, JSNum.val]
    rw [hcs, (sunriseCore_none_iff 85 0 c2Date).mpr (Or.inr jun21_cosH_lt)]

lemma toDegrees_nonneg {x : ℝ} (h : 0 ≤ x) : 0 ≤ toDegrees x := by
  unfold toDegrees
  exact div_nonneg (mul_nonneg h (by norm_num)) (le_of_lt pi_pos)

lemma toDegrees_le_180 {x : ℝ} (h : x ≤ π) : toDegrees x ≤ 180 := by
  unfold toDegrees
  rw [div_le_iff₀ pi_pos]
  nlinarith [pi_pos]

lemma calculateSunTimes_ok {lat lon : ℝ} {d : JSDate}
    (hval : validateCoordinates (.num lat) (.num lon) = true)
    (hnorm : normalizeDate d = .ok d) :
    calculateSunTimes (.num lat) (.num lon) d = .ok (sunTimesCore lat lon d) := by
  simp only [calculateSunTimes, hval, hnorm, not_true, if_false, JSNum.val]

/-- C5 (amended): whenever both `calculateSunrise` and `calculateSunset`
return an instant, the sunset is at or after the sunrise, and the day length
computed by `calculateSunTimes` satisfies `0 ≤ dayLength ≤ 24`; the
inequalities are not strict — at `cosHourAngle = 1` the two instants coincide
and the day length is 0 (see the counterexample). -/
theorem c5_theorem (lat lon : ℝ) (d : JSDate)
    (h1 : -90 ≤ lat) (h2 : lat ≤ 90) (h3 : -180 ≤ lon) (h4 : lon ≤ 180)
    (hv : d.valid = true) (hy1 : 1000 ≤ d.year) (hy2 : d.year ≤ 3000)
    (r s : ℝ) (hr : sunriseCore lat lon d = some r) (hs : sunsetCore lat lon d = some s) :
    r ≤ s ∧
    calculateSunTimes (.num lat) (.num lon) d = .ok (sunTimesCore lat lon d) ∧
    (sunTimesCore lat lon d).sunrise = some r ∧
    (sunTimesCore lat lon d).sunset = some s ∧
    (sunTimesCore lat lon d).dayLength = some ((s - r) / 60) ∧
    0 ≤ (s - r) / 60 ∧ (s - r) / 60 ≤ 24 := by
  have hr0 := hr
  have hs0 := hs
  by_cases hc1 : cosHourAngleFor lat d > 1
  · rw [(sunriseCore_none_iff lat lon d).mpr (Or.inl hc1)] at hr
    simp at hr
  by_cases hc2 : cosHourAngleFor lat d < -1
  · rw [(sunriseCore_none_iff lat lon d).mpr (Or.inr hc2)] at hr
    simp at hr
  rw [sunriseCore_some lat lon d hc1 hc2] at hr
  rw [sunsetCore_some lat lon d hc1 hc2] at hs
  have hrv := Option.some.inj hr
  have hsv := Option.some.inj hs
  have hH0 : 0 ≤ toDegrees (arccos (cosHourAngleFor lat d)) :=
    toDegrees_nonneg (Real.arccos_nonneg _)
  have hH180 : toDegrees (arccos (cosHourAngleFor lat d)) ≤ 180 :=
    toDegrees_le_180 (Real.arccos_le_pi _)
  have hsr : s - r = 8 * toDegrees (arccos (cosHourAngleFor lat d)) := by
    rw [← hrv, ← hsv]
    ring
  have hval := validateCoordinates_true h1 h2 h3 h4
  have hnorm := normalizeDate_ok hv hy1 hy2
  have hday : (sunTimesCore lat lon d).dayLength = some ((s - r) / 60) := by
    rw [show (sunTimesCore lat lon d).dayLength =
        (match sunriseCore lat lon d, sunsetCore lat lon d with
          | some r, some s => some ((s - r) / 60)
          | _, _ => none) from rfl, hr0, hs0]
  exact ⟨by linarith, calculateSunTimes_ok hval hnorm, hr0, hs0, hday,
    by linarith, by linarith⟩

lemma toRadians_zero : toRadians 0 = 0 := by
  unfold toRadians
  ring

lemma jun21_cosH_lat0 :
    ¬ cosHourAngleFor 0 c2Date > 1 ∧ ¬ cosHourAngleFor 0 c2Date < -1 := by
  unfold cosHourAngleFor
  dsimp only
  rw [show (⟨true, c2Date.year, c2Date.month, c2Date.day, 0, 0, 0⟩ : JSDate)
      = c2Date from rfl]
  rw [jun21_declRad, toRadians_zero, Real.sin_zero, Real.cos_zero, Real.cos_arcsin]
  obtain ⟨hU1, hU2⟩ := jun21_u_mem
  set U := sin (toRadians 23.439) * sin (toRadians (-271.8547361 +
    1.915 * sin (toRadians (-112.63366795)) +
    0.020 * sin (2 * toRadians (-112.63366795)))) with hUdef
  obtain ⟨hs01, hs02⟩ := s0_mem
  have hD : (0.9 : ℝ) ≤ √(1 - U ^ 2) := by
    rw [show (0.9 : ℝ) = √(0.81) by
      rw [show (0.81 : ℝ) = 0.9 ^ 2 by norm_num, Real.sqrt_sq (by norm_num)]]
    exact Real.sqrt_le_sqrt (by nlinarith)
  have hDpos : (0 : ℝ) < √(1 - U ^ 2) := by linarith
  constructor
  · rw [not_lt]
    rw [div_le_one (by nlinarith)]
    nlinarith
  · rw [not_lt]
    rw [le_div_iff₀ (by nlinarith)]
    nlinarith

/-- C5 witness: the amended day-length bounds applied at the equator on
2024-06-21, where both sunrise and sunset are defined. -/
theorem c5_witness :
    ((-90 : ℝ) ≤ 0 ∧ (0 : ℝ) ≤ 90 ∧ (-180 : ℝ) ≤ 0 ∧ (0 : ℝ) ≤ 180 ∧
      c2Date.valid = true ∧ (1000 : ℤ) ≤ c2Date.year ∧ c2Date.year ≤ 3000 ∧
      sunriseCore 0 0 c2Date =
        some (720 - 4 * toDegrees (arccos (cosHourAngleFor 0 c2Date)) -
          (getEquationOfTime (getJulianDay
            ⟨true, c2Date.year, c2Date.month, c2Date.day, 0, 0, 0⟩) + 4 * 0)) ∧
      sunsetCore 0 0 c2Date =
        some (720 + 4 * toDegrees (arccos (cosHourAngleFor 0 c2Date)) -
          (getEquationOfTime (getJulianDay
            ⟨true, c2Date.year, c2Date.month, c2Date.day, 0, 0, 0⟩) + 4 * 0))) ∧
    ((720 - 4 * toDegrees (arccos (cosHourAngleFor 0 c2Date)) -
        (getEquationOfTime (getJulianDay
          ⟨true, c2Date.year, c2Date.month, c2Date.day, 0, 0, 0⟩) + 4 * 0)) ≤
      (720 + 4 * toDegrees (arccos (cosHourAngleFor 0 c2Date)) -
        (getEquationOfTime (getJulianDay
          ⟨true, c2Date.year, c2Date.month, c2Date.day, 0, 0, 0⟩) + 4 * 0)) ∧
      calculateSunTimes (.num 0) (.num 0) c2Date = .ok (sunTimesCore 0 0 c2Date) ∧
      (sunTimesCore 0 0 c2Date).sunrise =
        some (720 - 4 * toDegrees (arccos (cosHourAngleFor 0 c2Date)) -
          (getEquationOfTime (getJulianDay
            ⟨true, c2Date.year, c2Date.month, c2Date.day, 0, 0, 0⟩) + 4 * 0)) ∧
      (sunTimesCore 0 0 c2Date).sunset =
        some (720 + 4 * toDegrees (arccos (cosHourAngleFor 0 c2Date)) -
          (getEquationOfTime (getJulianDay
            ⟨true, c2Date.year, c2Date.month, c2Date.day, 0, 0, 0⟩) + 4 * 0)) ∧
      (sunTimesCore 0 0 c2Date).dayLength =
        some (((720 + 4 * toDegrees (arccos (cosHourAngleFor 0 c2Date)) -
          (getEquationOfTime (getJulianDay
            ⟨true, c2Date.year, c2Date.month, c2Date.day, 0, 0, 0⟩) + 4 * 0)) -
          (720 - 4 * toDegrees (arccos (cosHourAngleFor 0 c2Date)) -
          (getEquationOfTime (getJulianDay
            ⟨true, c2Date.year, c2Date.month, c2Date.day, 0, 0, 0⟩) + 4 * 0))) / 60) ∧
      0 ≤ ((720 + 4 * toDegrees (arccos (cosHourAngleFor 0 c2Date)) -
          (getEquationOfTime (getJulianDay
            ⟨true, c2Date.year, c2Date.month, c2Date.day, 0, 0, 0⟩) + 4 * 0)) -
          (720 - 4 * toDegrees (arccos (cosHourAngleFor 0 c2Date)) -
          (getEquationOfTime (getJulianDay
            ⟨true, c2Date.year, c2Date.month, c2Date.day, 0, 0, 0⟩) + 4 * 0))) / 60 ∧
      ((720 + 4 * toDegrees (arccos (cosHourAngleFor 0 c2Date)) -
          (getEquationOfTime (getJulianDay
            ⟨true, c2Date.year, c2Date.month, c2Date.day, 0, 0, 0⟩) + 4 * 0)) -
          (720 - 4 * toDegrees (arccos (cosHourAngleFor 0 c2Date)) -
          (getEquationOfTime (getJulianDay
            ⟨true, c2Date.year, c2Date.month, c2Date.day, 0, 0, 0⟩) + 4 * 0))) / 60 ≤ 24) :=
  ⟨⟨by norm_num, by norm_num, by norm_num, by norm_num, rfl,
      by norm_num [c2Date], by norm_num [c2Date],
      sunriseCore_some 0 0 c2Date jun21_cosH_lat0.1 jun21_cosH_lat0.2,
      sunsetCore_some 0 0 c2Date jun21_cosH_lat0.1 jun21_cosH_lat0.2⟩,
    c5_theorem 0 0 c2Date (by norm_num) (by norm_num) (by norm_num) (by norm_num)
      rfl (by norm_num [c2Date]) (by norm_num [c2Date]) _ _
      (sunriseCore_some 0 0 c2Date jun21_cosH_lat0.1 jun21_cosH_lat0.2)
      (sunsetCore_some 0 0 c2Date jun21_cosH_lat0.1 jun21_cosH_lat0.2)⟩

lemma toDegrees_toRadians (x : ℝ) : toDegrees (toRadians x) = x := by
  unfold toRadians toDegrees
  field_simp

lemma toDegrees_mem {x : ℝ} (h1 : -(π / 2) ≤ x) (h2 : x ≤ π / 2) :
    -90 ≤ toDegrees x ∧ toDegrees x ≤ 90 := by
  have hπ : (0 : ℝ) < π := pi_pos
  unfold toDegrees
  constructor
  · rw [le_div_iff₀ hπ]
    nlinarith
  · rw [div_le_iff₀ hπ]
    nlinarith

lemma toDegrees_zero : toDegrees 0 = 0 := by
  unfold toDegrees
  simp

/-- The C5 counterexample latitude: the model's June-21 declination minus
`arccos (sin (-0.833°))`, in degrees.  At this valid latitude the closed-form
`cosHourAngle` is exactly 1, so sunrise and sunset coincide. -/
noncomputable def c5Lat : ℝ :=
  getSolarDeclination (getJulianDay c2Date) -
    toDegrees (arccos (sin (toRadians (-0.833))))

lemma c5Lat_rad :
    toRadians c5Lat =
      arcsin (sin (toRadians 23.439) * sin (toRadians (-271.8547361 +
        1.915 * sin (toRadians (-112.63366795)) +
        0.020 * sin (2 * toRadians (-112.63366795))))) -
      arccos (sin (toRadians (-0.833))) := by
  unfold c5Lat
  rw [show toRadians (getSolarDeclination (getJulianDay c2Date) -
      toDegrees (arccos (sin (toRadians (-0.833))))) =
      toRadians (getSolarDeclination (getJulianDay c2Date)) -
      toRadians (toDegrees (arccos (sin (toRadians (-0.833))))) by unfold toRadians; ring]
  rw [jun21_declRad, toRadians_toDegrees]

lemma c5_latRad_mem : -(π / 2) < toRadians c5Lat ∧ toRadians c5Lat ≤ 0 := by
  rw [c5Lat_rad]
  obtain ⟨hU1, hU2⟩ := jun21_u_mem
  set U := sin (toRadians 23.439) * sin (toRadians (-271.8547361 +
    1.915 * sin (toRadians (-112.63366795)) +
    0.020 * sin (2 * toRadians (-112.63366795)))) with hU
  obtain ⟨hs01, hs02⟩ := s0_mem
  set S := sin (toRadians (-0.833)) with hS
  have hπ1 : (3.141592 : ℝ) < π := pi_gt_d6
  have hπ2 : π < 3.141593 := pi_lt_d6
  have hApos : 0 < arcsin U := Real.arcsin_pos.mpr (by linarith)
  have hAU : U ≤ arcsin U := by
    have h := Real.sin_lt hApos
    rw [Real.sin_arcsin (by linarith) (by linarith)] at h
    linarith
  have hA2 : arcsin U ≤ π / 2 := Real.arcsin_le_pi_div_two U
  have hC := Real.arccos_eq_pi_div_two_sub_arcsin S
  have hS0 : arcsin S ≤ 0 := Real.arcsin_nonpos.mpr (by linarith)
  have h16 : (0.0146 : ℝ) ≤ sin 0.016 := by
    have h := sin_bounds_of_mem (le_refl (0.016 : ℝ)) (le_refl (0.016 : ℝ))
      (by norm_num) (by norm_num)
      (by norm_num : (0.0146 : ℝ) ≤ 0.016 - 0.016 ^ 3 / 6 - 0.016 ^ 4 * (5 / 96))
      (le_refl ((0.016 : ℝ) - 0.016 ^ 3 / 6 + 0.016 ^ 4 * (5 / 96)))
    exact h.1
  have hmono : arcsin (sin (-(0.016 : ℝ))) ≤ arcsin S := by
    apply Real.monotone_arcsin
    rw [Real.sin_neg]
    linarith
  have hsinv : arcsin (sin (-(0.016 : ℝ))) = -0.016 :=
    Real.arcsin_sin (by linarith) (by linarith)
  rw [hsinv] at hmono
  constructor
  · rw [hC]
    linarith
  · rw [hC]
    linarith

lemma c5_cosH_eq_one : cosHourAngleFor c5Lat c2Date = 1 := by
  have hmem := c5_latRad_mem
  rw [c5Lat_rad] at hmem
  unfold cosHourAngleFor
  dsimp only
  rw [show (⟨true, c2Date.year, c2Date.month, c2Date.day, 0, 0, 0⟩ : JSDate)
      = c2Date from rfl]
  rw [jun21_declRad, c5Lat_rad]
  obtain ⟨hU1, hU2⟩ := jun21_u_mem
  set U := sin (toRadians 23.439) * sin (toRadians (-271.8547361 +
    1.915 * sin (toRadians (-112.63366795)) +
    0.020 * sin (2 * toRadians (-112.63366795)))) with hU
  obtain ⟨hs01, hs02⟩ := s0_mem
  set S := sin (toRadians (-0.833)) with hS
  have hπ1 : (3.141592 : ℝ) < π := pi_gt_d6
  have hcosA : 0 < cos (arcsin U - arccos S) :=
    Real.cos_pos_of_mem_Ioo ⟨hmem.1, lt_of_le_of_lt hmem.2 (by linarith)⟩
  have hcosB : 0 < cos (arcsin U) := by
    rw [Real.cos_arcsin]
    exact Real.sqrt_pos.mpr (by nlinarith)
  have key : S = cos (arcsin U - arccos S) * cos (arcsin U) +
      sin (arcsin U - arccos S) * sin (arcsin U) := by
    have h1 : arccos S = arcsin U - (arcsin U - arccos S) := by ring
    calc S = cos (arccos S) := (Real.cos_arccos (by linarith) (by linarith)).symm
      _ = cos (arcsin U - (arcsin U - arccos S)) := by rw [← h1]
      _ = cos (arcsin U) * cos (arcsin U - arccos S) +
          sin (arcsin U) * sin (arcsin U - arccos S) := Real.cos_sub _ _
      _ = _ := by ring
  rw [div_eq_one_iff_eq (ne_of_gt (mul_pos hcosA hcosB))]
  linear_combination key

/-- C5 counterexample: a valid latitude and date at which `cosHourAngle = 1`,
both sunrise and sunset are non-null and coincide, and `calculateSunTimes`
reports a day length of exactly 0, refuting `sunset > sunrise` and
`0 < dayLength`. -/
theorem c5_counterexample :
    (-90 ≤ c5Lat ∧ c5Lat ≤ 90 ∧ c2Date.valid = true ∧
      (1000 : ℤ) ≤ c2Date.year ∧ c2Date.year ≤ 3000) ∧
    cosHourAngleFor c5Lat c2Date = 1 ∧
    (∃ t : ℝ, sunriseCore c5Lat 0 c2Date = some t ∧ sunsetCore c5Lat 0 c2Date = some t ∧
      calculateSunrise (.num c5Lat) (.num 0) c2Date = .ok (some t) ∧
      calculateSunset (.num c5Lat) (.num 0) c2Date = .ok (some t)) ∧
    (sunTimesCore c5Lat 0 c2Date).dayLength = some 0 := by
  have hπ1 : (3.141592 : ℝ) < π := pi_gt_d6
  have hlatb : -90 ≤ c5Lat ∧ c5Lat ≤ 90 := by
    have h := c5_latRad_mem
    have hm := toDegrees_mem (le_of_lt h.1) (le_trans h.2 (by linarith))
    rwa [toDegrees_toRadians] at hm
  have hcos := c5_cosH_eq_one
  have hc1 : ¬ cosHourAngleFor c5Lat c2Date > 1 := by
    rw [hcos]
    exact lt_irrefl 1
  have hc2 : ¬ cosHourAngleFor c5Lat c2Date < -1 := by
    rw [hcos]
    norm_num
  have hr := sunriseCore_some c5Lat 0 c2Date hc1 hc2
  have hs := sunsetCore_some c5Lat 0 c2Date hc1 hc2
  rw [hcos, Real.arccos_one, toDegrees_zero] at hr hs
  set E := getEquationOfTime (getJulianDay
    ⟨true, c2Date.year, c2Date.month, c2Date.day, 0, 0, 0⟩) with hE
  have hr2 : sunriseCore c5Lat 0 c2Date = some (720 - E) := by
    rw [hr]
    congr 1
    ring
  have hs2 : sunsetCore c5Lat 0 c2Date = some (720 - E) := by
    rw [hs]
    congr 1
    ring
  have hval := validateCoordinates_true (b := 0) hlatb.1 hlatb.2 (by norm_num) (by norm_num)
  refine ⟨⟨hlatb.1, hlatb.2, rfl, by norm_num [c2Date], by norm_num [c2Date]⟩, hcos,
    ⟨720 - E, hr2, hs2, ?_, ?_⟩, ?_⟩
  · rw [show calculateSunrise (.num c5Lat) (.num 0) c2Date =
        .ok (sunriseCore c5Lat 0 c2Date) by simp [calculateSunrise, hval, JSNum.val], hr2]
  · rw [show calculateSunset (.num c5Lat) (.num 0) c2Date =
        .ok (sunsetCore c5Lat 0 c2Date) by simp [calculateSunset, hval, JSNum.val], hs2]
  · rw [show (sunTimesCore c5Lat 0 c2Date).dayLength =
        (match sunriseCore c5Lat 0 c2Date, sunsetCore c5Lat 0 c2Date with
          | some r, some s => some ((s - r) / 60)
          | _, _ => none) from rfl, hr2, hs2]
    norm_num

end SolarCalc
